import Mathlib

/-!
Shallow embedding of the tetration-ansible reconciler modules
(`library/tetration_user.py`, `tetration_tenant.py`, `tetration_role.py`,
`tetration_user_role.py`, `tetration_agent_nat_config.py`,
`tetration_interface_intent.py`).

Each module's `main` is embedded as a pure function from its parameters, the
Ansible `check_mode` flag and an explicit model of the remote server's state to
a result consisting of the outcome (`changed`/`object`, a fatal `fail_json`, or
a Python-level crash), the list of `run_method` HTTP calls issued, and the
resulting server state.  `get_object` calls are read-only lookups into the
server model and are not recorded in the call list (the source's
check-mode/mutation claims are all about `run_method` calls).

The remote API itself (`TetrationApiModule`) is an external collaborator that
is not part of this repository; its semantics (create/update/soft-delete
behaviour of POST/PUT/DELETE, `get_object` returning the matching record or
null) are modelled from the spec's external-interface contract.
-/

namespace Tet

/-- HTTP verbs passed as `method_name` to `run_method`. -/
inductive Method
  | get
  | post
  | put
  | delete
deriving DecidableEq, Repr

/-- A call is mutating when its verb is POST, PUT or DELETE. -/
def Method.isMutating : Method → Bool
  | .get => false
  | _ => true

/-- The `target` strings the modules build (e.g. `'%s/%s/enable'`),
one constructor per distinct shape. -/
inductive Target
  | users
  | user (id : String)
  | userEnable (id : String)
  | userAddRole (id : String)
  | userRemoveRole (id : String)
  | roles
  | role (id : String)
  | roleCapabilities (id : String)
  | tenants
  | tenant (id : Int)
  | natConfigs
  | natConfig (id : String)
  | intents
deriving DecidableEq, Repr

/-- `req_payload` of the user module's POST/PUT (`new_object`). -/
structure UserPayload where
  email : String
  first_name : Option String
  last_name : Option String
  app_scope_id : Option String
deriving DecidableEq, Repr

/-- `req_payload` of the tenant module's POST/PUT (`new_object`). -/
structure TenantPayload where
  switch_vrfs : Option (List String)
  name : Option String
  id : Option Int
deriving DecidableEq, Repr

/-- `req_payload` of the role module's POST/PUT (`new_object`). -/
structure RolePayload where
  description : Option String
  name : Option String
  app_scope_id : Option String
deriving DecidableEq, Repr

/-- `req_payload` of the NAT-config module's POST (`new_object`). -/
structure NatPayload where
  src_subnet : Option String
  src_port_range_start : Option Int
  src_port_range_end : Option Int
  vrf_id : Option Int
deriving DecidableEq, Repr

/-- An interface config intent record as held by the server and sent in the
interface-intent module's POST payload. -/
structure Intent where
  vrf_id : Int
  inventory_filter_id : String
deriving DecidableEq, Repr

/-- Request payloads, one constructor per payload shape appearing in the
sources. -/
inductive Payload
  | empty
  | user (p : UserPayload)
  | tenant (p : TenantPayload)
  | role (p : RolePayload)
  | cap (app_scope_id : Option String) (ability : String)
  | roleId (role_id : String)
  | nat (p : NatPayload)
  | intents (l : List Intent)
deriving DecidableEq, Repr

/-- One `run_method` invocation. -/
structure ApiCall where
  method : Method
  target : Target
  payload : Payload
deriving DecidableEq, Repr

/-- A user record, with the fields the modules read.  `disabled_at` is the
soft-delete timestamp (null for active users). -/
structure User where
  id : String
  email : String
  first_name : Option String
  last_name : Option String
  app_scope_id : Option String
  disabled_at : Option Int
  role_ids : List String
deriving DecidableEq, Repr

/-- An app scope record (id and name are the fields the modules read). -/
structure Scope where
  id : String
  name : String
deriving DecidableEq, Repr

/-- A capability attached to a role. -/
structure Capability where
  ability : String
  app_scope_id : String
deriving DecidableEq, Repr

/-- A role record with its capabilities. -/
structure Role where
  id : String
  name : String
  description : Option String
  app_scope_id : String
  capabilities : List Capability
deriving DecidableEq, Repr

/-- A tenant (VRF) record. -/
structure Tenant where
  id : Int
  name : String
  switch_vrfs : List String
deriving DecidableEq, Repr

/-- An agent NAT config record. -/
structure NatConfig where
  id : String
  vrf_id : Int
  src_subnet : String
  src_port_range_start : Int
  src_port_range_end : Int
deriving DecidableEq, Repr

/-- An inventory filter record. -/
structure InvFilter where
  id : String
  name : String
  app_scope_id : String
deriving DecidableEq, Repr

/-- Modelled from the spec: the remote platform's state, as seen through the
external `TetrationApiModule` collaborator (resource collections plus the ids
the server would assign to newly created users/roles/NAT configs). -/
structure Server where
  users : List User
  scopes : List Scope
  roles : List Role
  tenants : List Tenant
  natConfigs : List NatConfig
  filters : List InvFilter
  intents : List Intent
  freshUserId : String
  freshRoleId : String
  freshNatId : String
deriving DecidableEq, Repr

/-- Outcome of one module invocation: a normal `exit_json` with `changed` and
the result `object`, a fatal `fail_json` (message elided), or a Python-level
crash. -/
inductive Outcome (Obj : Type)
  | ok (changed : Bool) (obj : Obj)
  | failed
  | crash
deriving DecidableEq, Repr

/-- Result of one module invocation: outcome, the `run_method` calls issued in
order, and the server state afterwards. -/
structure Run (Obj : Type) where
  outcome : Outcome Obj
  calls : List ApiCall
  server : Server
deriving Repr

/-- The `state` parameter of the three-state modules. -/
inductive St
  | present
  | absent
  | query
deriving DecidableEq, Repr

/-- The `query_type` parameter (tenant and interface-intent modules). -/
inductive QT
  | single
  | all
deriving DecidableEq, Repr

/-- Python truthiness of an optional string parameter (`if app_scope_name:`):
missing and empty strings are falsy. -/
def strTruthy : Option String → Bool
  | some s => decide (s ≠ "")
  | none => false

/-- Python truthiness of an optional int parameter: missing and `0` are
falsy. -/
def intTruthy : Option Int → Bool
  | some n => decide (n ≠ 0)
  | none => false

/-- Modelled from the spec: `get_object` on the users collection with
`include_disabled=true` and an email filter returns the matching record or
null. -/
def Server.findUserByEmail (s : Server) (email : String) : Option User :=
  s.users.find? (fun u => u.email == email)

/-- Modelled from the spec: `get_object` on the users collection without
`include_disabled` (user-role module) only sees active users. -/
def Server.findActiveUserByEmail (s : Server) (email : String) : Option User :=
  s.users.find? (fun u => u.email == email && u.disabled_at.isNone)

/-- Modelled from the spec: GET of `users/<id>`. -/
def Server.getUserById (s : Server) (i : String) : Option User :=
  s.users.find? (fun u => u.id == i)

/-- Modelled from the spec: POST `users/<id>/enable` clears the soft-delete
timestamp. -/
def Server.enableUser (s : Server) (i : String) : Server :=
  { s with users := s.users.map (fun u => if u.id == i then { u with disabled_at := none } else u) }

/-- Modelled from the spec: DELETE of `users/<id>` soft-deletes (sets
`disabled_at` to the current time). -/
def Server.disableUser (s : Server) (i : String) (now : Int) : Server :=
  { s with users := s.users.map (fun u => if u.id == i then { u with disabled_at := some now } else u) }

/-- Modelled from the spec: PUT of `users/<id>` replaces the fields present in
the payload. -/
def Server.updateUser (s : Server) (i : String) (pl : UserPayload) : Server :=
  { s with users := s.users.map (fun u =>
      if u.id == i then
        { u with
          email := pl.email
          first_name := match pl.first_name with | some v => some v | none => u.first_name
          last_name := match pl.last_name with | some v => some v | none => u.last_name
          app_scope_id := match pl.app_scope_id with | some v => some v | none => u.app_scope_id }
      else u) }

/-- Modelled from the spec: POST of the users collection creates an enabled
user with the server-assigned fresh id. -/
def Server.createUser (s : Server) (pl : UserPayload) : Server × User :=
  let u : User :=
    { id := s.freshUserId
      email := pl.email
      first_name := pl.first_name
      last_name := pl.last_name
      app_scope_id := pl.app_scope_id
      disabled_at := none
      role_ids := [] }
  ({ s with users := s.users ++ [u] }, u)

/-- Parameters of `tetration_user` (`main`), after `AnsibleModule` validation
(`app_scope_id` and `app_scope_name` mutually exclusive). -/
structure UserParams where
  state : St
  email : String
  first_name : Option String
  last_name : Option String
  app_scope_id : Option String
  app_scope_name : Option String
deriving DecidableEq, Repr

/-- The result `object` of `tetration_user`: null, a server record, or the
locally built `new_object` payload (check mode). -/
inductive UserObj
  | null
  | record (u : User)
  | payload (p : UserPayload)
deriving DecidableEq, Repr

/-- Helper: the `object` value for an optional record. -/
def userObjOf : Option User → UserObj
  | some u => .record u
  | none => .null

/-- The create/re-enable/update part of the user module's `present` branch
(`tetration_user.py` lines 239-286), after the scope-name resolution.
`effScope` is `module.params['app_scope_id']` after the possible overwrite on
the scope-name path. -/
def userPresentCore (check : Bool) (srv : Server) (existing : Option User)
    (disabled : Bool) (p : UserParams) (pl : UserPayload) (effScope : Option String) :
    Run UserObj :=
  let step : Bool × List ApiCall × Server × Option String :=
    match existing with
    | none =>
      -- object does not exist: create it (POST unless check mode)
      if check then (true, [], srv, none)
      else
        let cu := srv.createUser pl
        (true, [⟨.post, .users, .user pl⟩], cu.1, some cu.2.id)
    | some ex =>
      -- re-enable path: note the POST is issued even in check mode
      let pre : Bool × List ApiCall × Server :=
        if disabled then
          (true, [⟨.post, .userEnable ex.id, .empty⟩], srv.enableUser ex.id)
        else (false, [], srv)
      let update_needed :=
        (match p.first_name with
         | some v => decide (ex.first_name ≠ some v)
         | none => false) ||
        (match p.last_name with
         | some v => decide (ex.last_name ≠ some v)
         | none => false) ||
        (match effScope with
         | some v => decide (ex.app_scope_id ≠ some v)
         | none => false)
      if update_needed then
        if check then (true, pre.2.1, pre.2.2, some ex.id)
        else
          (true, pre.2.1 ++ [⟨.put, .user ex.id, .user pl⟩],
            pre.2.2.updateUser ex.id pl, some ex.id)
      else (pre.1, pre.2.1, pre.2.2, some ex.id)
  let changed := step.1
  let calls := step.2.1
  let srv1 := step.2.2.1
  let idv := step.2.2.2
  if ¬changed then
    { outcome := .ok false (userObjOf existing), calls := calls, server := srv1 }
  else if check then
    { outcome := .ok true (.payload pl), calls := calls, server := srv1 }
  else
    let cid := idv.getD ("None")
    { outcome := .ok true (userObjOf (srv1.getUserById cid))
      calls := calls ++ [⟨.get, .user cid, .empty⟩]
      server := srv1 }

/-- The `present` branch of `tetration_user.py` (lines 210-286): build
`new_object`, resolve `app_scope_name` (failing on no match or on a name
containing a colon), then create/re-enable/update. -/
def userPresent (check : Bool) (srv : Server) (existing : Option User)
    (disabled : Bool) (p : UserParams) : Run UserObj :=
  let pl0 : UserPayload :=
    { email := p.email
      first_name := p.first_name
      last_name := p.last_name
      app_scope_id := p.app_scope_id }
  if strTruthy p.app_scope_name then
    let nm := p.app_scope_name.getD ("")
    match srv.scopes.find? (fun sc => sc.name == nm) with
    | none => { outcome := .failed, calls := [], server := srv }
    | some sc =>
      if nm.data.contains ':' then
        { outcome := .failed, calls := [], server := srv }
      else
        userPresentCore check srv existing disabled p
          { pl0 with app_scope_id := some sc.id } (some sc.id)
  else
    userPresentCore check srv existing disabled p pl0 p.app_scope_id

/-- The `absent` branch of `tetration_user.py` (lines 292-312). -/
def userAbsent (check : Bool) (now : Int) (srv : Server) (existing : Option User)
    (disabled : Bool) (p : UserParams) : Run UserObj :=
  match existing with
  | some ex =>
    if ¬disabled then
      if check then
        { outcome := .ok true (.record { ex with disabled_at := some now })
          calls := []
          server := srv }
      else
        let srv1 := srv.disableUser ex.id now
        { outcome := .ok true (userObjOf (srv1.findUserByEmail p.email))
          calls := [⟨.delete, .user ex.id, .empty⟩]
          server := srv1 }
    else
      { outcome := .ok false (.record ex), calls := [], server := srv }
  | none => { outcome := .ok false .null, calls := [], server := srv }

/-- `main` of `tetration_user.py`: fetch the user by email (including disabled
users), then dispatch on `state`.  `now` models the `time.time()` clock used
on the check-mode absent path. -/
def userMain (p : UserParams) (check : Bool) (now : Int) (srv : Server) : Run UserObj :=
  let existing := srv.findUserByEmail p.email
  let disabled :=
    match existing with
    | none => false
    | some u => u.disabled_at.isSome
  match p.state with
  | .present => userPresent check srv existing disabled p
  | .absent => userAbsent check now srv existing disabled p
  | .query => { outcome := .ok false (userObjOf existing), calls := [], server := srv }

/-! ## Tenant module (`tetration_tenant.py`) -/

/-- Parameters of `tetration_tenant` (`main`).  The source's `id` parameter is
a string converted with `int(id)`; it is modelled as the converted integer. -/
structure TenantParams where
  state : St
  name : Option String
  id : Option Int
  switch_vrfs : List String
  query_type : QT
deriving DecidableEq, Repr

/-- The result `object` of `tetration_tenant`. -/
inductive TenantObj
  | null
  | record (t : Tenant)
  | payload (p : TenantPayload)
  | list (ts : List Tenant)
deriving DecidableEq, Repr

/-- Modelled from the spec: `get_object` on the tenants collection with an id
filter. -/
def Server.findTenantById (s : Server) (i : Int) : Option Tenant :=
  s.tenants.find? (fun t => t.id == i)

/-- Modelled from the spec: `get_object` on the tenants collection with a name
filter. -/
def Server.findTenantByName (s : Server) (n : String) : Option Tenant :=
  s.tenants.find? (fun t => t.name == n)

/-- Modelled from the spec: POST of the tenants collection creates a tenant
with the id contained in the payload (the module always supplies one). -/
def Server.createTenant (s : Server) (pl : TenantPayload) : Server × Tenant :=
  let t : Tenant :=
    { id := pl.id.getD 0
      name := pl.name.getD ("")
      switch_vrfs := pl.switch_vrfs.getD [] }
  ({ s with tenants := s.tenants ++ [t] }, t)

/-- Modelled from the spec: PUT of `vrfs/<id>` replaces the fields present in
the payload. -/
def Server.updateTenant (s : Server) (i : Int) (pl : TenantPayload) : Server :=
  { s with tenants := s.tenants.map (fun t =>
      if t.id == i then
        { t with
          name := match pl.name with | some v => v | none => t.name
          switch_vrfs := match pl.switch_vrfs with | some v => v | none => t.switch_vrfs }
      else t) }

/-- Modelled from the spec: DELETE of `vrfs/<id>` removes the tenant. -/
def Server.deleteTenant (s : Server) (i : Int) : Server :=
  { s with tenants := s.tenants.filter (fun t => t.id != i) }

/-- The decrement loop of `tetration_tenant.py` lines 225-227
(`id = 676769; while id in existing_ids: id -= 1`), with explicit fuel.
Python's loop needs no fuel; `tenantIdLoop_spec` shows fuel
`existing.length + 1` is never exhausted, so the two agree. -/
def tenantIdLoop (existing : List Int) : Nat → Int → Int
  | 0, i => i
  | fuel + 1, i => if i ∈ existing then tenantIdLoop existing fuel (i - 1) else i

/-- The fixed starting constant of the tenant id fallback. -/
def tenantIdStart : Int := 676769

/-- The tenant module's generated fallback id
(`tetration_tenant.py` lines 219-227). -/
def genTenantId (existing : List Int) : Int :=
  tenantIdLoop existing (existing.length + 1) tenantIdStart

/-- Python `set(a) != set(b)` on the `switch_vrfs` lists. -/
def vrfSetNe (a b : List String) : Bool :=
  decide (a.toFinset ≠ b.toFinset)

/-- The `present` branch of `tetration_tenant.py` (lines 240-284).  `idv` is
the `id` variable at the end of the lookup phase (always set by then). -/
def tenantPresent (check : Bool) (srv : Server) (existing : Option Tenant)
    (idv : Int) (p : TenantParams) : List ApiCall → Run TenantObj :=
  fun calls0 =>
  let pl0 : TenantPayload :=
    { switch_vrfs := some p.switch_vrfs
      name := p.name
      id := none }
  match existing with
  | none =>
    -- the object does not exist at all: create it
    let pl := { pl0 with id := some idv }
    if check then
      { outcome := .ok true (.payload pl), calls := calls0, server := srv }
    else
      let ct := srv.createTenant pl
      let calls1 := calls0 ++ [⟨.post, .tenants, .tenant pl⟩]
      { outcome := .ok true ((ct.1.findTenantById ct.2.id).elim .null .record)
        calls := calls1 ++ [⟨.get, .tenant ct.2.id, .empty⟩]
        server := ct.1 }
  | some ex =>
    if (match p.name with | some n => decide (ex.name ≠ n) | none => false) ||
        vrfSetNe ex.switch_vrfs p.switch_vrfs then
      if check then
        { outcome := .ok true (.payload pl0), calls := calls0, server := srv }
      else
        let srv1 := srv.updateTenant idv pl0
        { outcome := .ok true ((srv1.findTenantById idv).elim .null .record)
          calls := calls0 ++ [⟨.put, .tenant idv, .tenant pl0⟩, ⟨.get, .tenant idv, .empty⟩]
          server := srv1 }
    else
      { outcome := .ok false (.record ex), calls := calls0, server := srv }

/-- `main` of `tetration_tenant.py`: parameter check, lookup phase (by id, by
name, or the query-all listing), the id-generation fallback, then the
present/absent/query dispatch. -/
def tenantMain (p : TenantParams) (check : Bool) (srv : Server) : Run TenantObj :=
  if (p.state = .present ∨ p.state = .absent) ∧ ¬strTruthy p.name ∧ ¬p.id.isSome then
    { outcome := .failed, calls := [], server := srv }
  else
    -- lookup phase
    let single := p.state ≠ .query ∨ p.query_type = .single
    let look : Option Tenant × Option Int × Option (List Tenant) × List ApiCall :=
      if single ∧ p.id.isSome then
        (srv.findTenantById (p.id.getD 0), p.id, none, [])
      else if single ∧ p.name.isSome then
        let f := srv.findTenantByName (p.name.getD (""))
        (f, f.map (fun t => t.id), none, [])
      else if p.state = .query ∧ p.query_type = .all then
        -- note: the comprehension filters on the *parameter* `name`,
        -- so the result is all tenants or the empty list
        let l := if p.name ∈ [some ("Tetration"), some ("Unknown"), some ("Default")]
          then [] else srv.tenants
        (none, p.id, some l, [⟨.get, .tenants, .empty⟩])
      else (none, p.id, none, [])
    let existing := look.1
    let queryAll := look.2.2.1
    let idAndCalls : Int × List ApiCall :=
      match look.2.1 with
      | some i => (i, look.2.2.2)
      | none =>
        (genTenantId (srv.tenants.map (fun t => t.id)),
          look.2.2.2 ++ [⟨.get, .tenants, .empty⟩])
    let idv := idAndCalls.1
    let calls0 := idAndCalls.2
    match p.state with
    | .present => tenantPresent check srv existing idv p calls0
    | .absent =>
      match existing with
      | some _ =>
        if check then
          { outcome := .ok true .null, calls := calls0, server := srv }
        else
          { outcome := .ok true .null
            calls := calls0 ++ [⟨.delete, .tenant idv, .empty⟩]
            server := srv.deleteTenant idv }
      | none => { outcome := .ok false .null, calls := calls0, server := srv }
    | .query =>
      match queryAll with
      | some l => { outcome := .ok false (.list l), calls := calls0, server := srv }
      | none =>
        { outcome := .ok false (existing.elim .null .record), calls := calls0, server := srv }

/-! ## Role module (`tetration_role.py`) -/

/-- The validated `capability_ability` choices. -/
inductive Ability
  | read
  | write
  | execute
  | developer
  | enforce
  | owner
deriving DecidableEq, Repr

/-- The `CAPABILITIES` dictionary of `tetration_role.py`. -/
def capMap : Ability → String
  | .read => "SCOPE_READ"
  | .write => "SCOPE_WRITE"
  | .execute => "EXECUTE"
  | .developer => "DEVELOPER"
  | .enforce => "ENFORCE"
  | .owner => "SCOPE_OWNER"

/-- Parameters of `tetration_role` (`main`), after `AnsibleModule` validation
(`required_one_of [name, id]`, `required_together [capability_appscope,
capability_ability]` — so the capability pair is modelled as one optional
pair). -/
structure RoleParams where
  state : St
  name : Option String
  description : Option String
  app_scope_id : String
  id : Option String
  capability : Option (Ability × String)
deriving DecidableEq, Repr

/-- The result `object` of `tetration_role`. -/
inductive RoleObj
  | null
  | record (r : Role)
  | payload (p : RolePayload)
deriving DecidableEq, Repr

/-- Modelled from the spec: `get_object` on the roles collection with an id
filter, or GET of `roles/<id>` (which also returns the capabilities). -/
def Server.getRoleById (s : Server) (i : String) : Option Role :=
  s.roles.find? (fun r => r.id == i)

/-- Modelled from the spec: `get_object` on the roles collection with a
name + app_scope_id filter. -/
def Server.findRoleByName (s : Server) (n sc : String) : Option Role :=
  s.roles.find? (fun r => r.name == n && r.app_scope_id == sc)

/-- Modelled from the spec: POST of the roles collection creates a role with
the server-assigned fresh id and no capabilities. -/
def Server.createRole (s : Server) (pl : RolePayload) : Server × Role :=
  let r : Role :=
    { id := s.freshRoleId
      name := pl.name.getD ("")
      description := pl.description
      app_scope_id := pl.app_scope_id.getD ("")
      capabilities := [] }
  ({ s with roles := s.roles ++ [r] }, r)

/-- Modelled from the spec: PUT of `roles/<id>` replaces the fields present in
the payload. -/
def Server.updateRole (s : Server) (i : String) (pl : RolePayload) : Server :=
  { s with roles := s.roles.map (fun r =>
      if r.id == i then
        { r with
          name := match pl.name with | some v => v | none => r.name
          description := match pl.description with | some v => some v | none => r.description }
      else r) }

/-- Modelled from the spec: POST of `roles/<id>/capabilities` appends the
capability. -/
def Server.addCapability (s : Server) (i : String) (c : Capability) : Server :=
  { s with roles := s.roles.map (fun r =>
      if r.id == i then { r with capabilities := r.capabilities ++ [c] } else r) }

/-- Modelled from the spec: DELETE of `roles/<id>` removes the role. -/
def Server.deleteRole (s : Server) (i : String) : Server :=
  { s with roles := s.roles.filter (fun r => r.id != i) }

/-- The capability block of `tetration_role.py` (lines 297-313): if a
capability pair was supplied and is not among the existing role's
(ability, app_scope_id) pairs, add it (POST unless check mode). -/
def roleCapabilityStep (check : Bool) (srv : Server) (existing : Option Role)
    (idv : Option String) (p : RoleParams) : Bool × List ApiCall × Server :=
  match p.capability with
  | none => (false, [], srv)
  | some cap =>
    let my_ability := capMap cap.1
    let my_scope := cap.2
    let t : List (String × String) :=
      match existing with
      | some r => r.capabilities.map (fun c => (c.ability, c.app_scope_id))
      | none => []
    if (my_ability, my_scope) ∈ t then (false, [], srv)
    else if check then (true, [], srv)
    else
      let cid := idv.getD ("None")
      (true, [⟨.post, .roleCapabilities cid, .cap (some my_scope) my_ability⟩],
        srv.addCapability cid ⟨my_ability, my_scope⟩)

/-- The update condition of `tetration_role.py` line 288: the name or the
description is supplied and differs from the existing record. -/
def roleDiff (ex : Role) (p : RoleParams) : Bool :=
  (match p.name with | some n => decide (ex.name ≠ n) | none => false) ||
  (match p.description with | some d => decide (ex.description ≠ some d) | none => false)

/-- The `present` branch of `tetration_role.py` (lines 263-326). -/
def rolePresent (check : Bool) (srv : Server) (existing : Option Role)
    (idv : Option String) (p : RoleParams) (calls0 : List ApiCall) : Run RoleObj :=
  let pl0 : RolePayload :=
    { description := p.description, name := p.name, app_scope_id := none }
  -- create/update phase
  let step : Bool × RolePayload × List ApiCall × Server × Option String :=
    match existing with
    | none =>
      let pl := if p.app_scope_id ≠ "" then { pl0 with app_scope_id := some p.app_scope_id } else pl0
      if check then (true, pl, [], srv, idv)
      else
        let cr := srv.createRole pl
        (true, pl, [⟨.post, .roles, .role pl⟩], cr.1, some cr.2.id)
    | some ex =>
      if roleDiff ex p then
        if check then (true, pl0, [], srv, idv)
        else
          (true, pl0, [⟨.put, .role (idv.getD ("None")), .role pl0⟩],
            srv.updateRole (idv.getD ("None")) pl0, idv)
      else (false, pl0, [], srv, idv)
  let cstep := roleCapabilityStep check step.2.2.2.1 existing step.2.2.2.2 p
  let changed := step.1 || cstep.1
  let calls := calls0 ++ step.2.2.1 ++ cstep.2.1
  let srv1 := cstep.2.2
  let idv1 := step.2.2.2.2
  if ¬changed then
    { outcome := .ok false (existing.elim .null .record), calls := calls, server := srv1 }
  else if check then
    { outcome := .ok true (.payload step.2.1), calls := calls, server := srv1 }
  else
    let cid := idv1.getD ("None")
    { outcome := .ok true ((srv1.getRoleById cid).elim .null .record)
      calls := calls ++ [⟨.get, .role cid, .empty⟩]
      server := srv1 }

/-- `main` of `tetration_role.py`: lookup by id (with the existence pre-check
and the fatal missing-id-under-present error) or by name + scope (each found
lookup is followed by a full GET of `roles/<id>`), then the
present/absent/query dispatch. -/
def roleMain (p : RoleParams) (check : Bool) (srv : Server) : Run RoleObj :=
  let look : Option (Option Role × Option String × List ApiCall) :=
    match p.id with
    | some i =>
      match srv.getRoleById i with
      | some _ => some (srv.getRoleById i, some i, [⟨.get, .role i, .empty⟩])
      | none =>
        if p.state = .present then none
        else some (none, some i, [])
    | none =>
      match p.name with
      | some n =>
        match srv.findRoleByName n p.app_scope_id with
        | some r => some (srv.getRoleById r.id, some r.id, [⟨.get, .role r.id, .empty⟩])
        | none => some (none, none, [])
      | none => some (none, none, [])
  match look with
  | none => { outcome := .failed, calls := [], server := srv }
  | some l =>
    let existing := l.1
    let idv := l.2.1
    let calls0 := l.2.2
    match p.state with
    | .present => rolePresent check srv existing idv p calls0
    | .absent =>
      match existing with
      | some _ =>
        let cid := idv.getD ("None")
        if check then
          { outcome := .ok true .null, calls := calls0, server := srv }
        else
          { outcome := .ok true .null
            calls := calls0 ++ [⟨.delete, .role cid, .empty⟩]
            server := srv.deleteRole cid }
      | none => { outcome := .ok false .null, calls := calls0, server := srv }
    | .query =>
      { outcome := .ok false (existing.elim .null .record), calls := calls0, server := srv }

/-! ## User-role-binding module (`tetration_user_role.py`) -/

/-- The two-state `state` parameter of `tetration_user_role`. -/
inductive St2
  | present
  | absent
deriving DecidableEq, Repr

/-- Parameters of `tetration_user_role` (`main`). -/
structure UserRoleParams where
  state : St2
  email : String
  role_ids : List String
deriving DecidableEq, Repr

/-- The result `object` of `tetration_user_role`. -/
inductive UserRoleObj
  | null
  | record (u : User)
deriving DecidableEq, Repr

/-- Modelled from the spec: PUT of `users/<id>/add_role` attaches the role to
the user (a no-op when already attached). -/
def Server.addRoleToUser (s : Server) (i : String) (role : String) : Server :=
  { s with users := s.users.map (fun u =>
      if u.id == i then
        { u with role_ids := if role ∈ u.role_ids then u.role_ids else u.role_ids ++ [role] }
      else u) }

/-- Modelled from the spec: DELETE of `users/<id>/remove_role` detaches the
role from the user. -/
def Server.removeRoleFromUser (s : Server) (i : String) (role : String) : Server :=
  { s with users := s.users.map (fun u =>
      if u.id == i then { u with role_ids := u.role_ids.filter (fun r => r != role) } else u) }

/-- The `present` loop of `tetration_user_role.py` (lines 190-201): for each
requested role not in the user's (pre-loop) role list, add it.  The membership
test uses `existing_list` as captured before the loop, exactly as the
source does. -/
def userRoleAddLoop (check : Bool) (uid : String) (existing_list : List String) :
    List String → Bool × List ApiCall × Server → Bool × List ApiCall × Server
  | [], acc => acc
  | role :: rest, acc =>
    if role ∉ existing_list then
      let acc1 :=
        if check then (true, acc.2.1, acc.2.2)
        else (true, acc.2.1 ++ [⟨.put, .userAddRole uid, .roleId role⟩],
          acc.2.2.addRoleToUser uid role)
      userRoleAddLoop check uid existing_list rest acc1
    else userRoleAddLoop check uid existing_list rest (acc.1, acc.2.1, acc.2.2)

/-- The `absent` loop of `tetration_user_role.py` (lines 213-222): for each
requested role in the user's role list, report a change, and issue the
remove call only when not in check mode and the role is also in the
authoritative role list. -/
def userRoleRemoveLoop (check : Bool) (uid : String) (existing_list active_role_ids : List String) :
    List String → Bool × List ApiCall × Server → Bool × List ApiCall × Server
  | [], acc => acc
  | role :: rest, acc =>
    if role ∈ existing_list then
      let acc1 :=
        if ¬check ∧ role ∈ active_role_ids then
          (true, acc.2.1 ++ [⟨.delete, .userRemoveRole uid, .roleId role⟩],
            acc.2.2.removeRoleFromUser uid role)
        else (true, acc.2.1, acc.2.2)
      userRoleRemoveLoop check uid existing_list active_role_ids rest acc1
    else userRoleRemoveLoop check uid existing_list active_role_ids rest acc

/-- `main` of `tetration_user_role.py`: fetch the (active) user by email
(fatal when absent), run the add or remove loop, then fetch and return the
user's current record. -/
def userRoleMain (p : UserRoleParams) (check : Bool) (srv : Server) : Run UserRoleObj :=
  match srv.findActiveUserByEmail p.email with
  | none => { outcome := .failed, calls := [], server := srv }
  | some u =>
    let existing_list := u.role_ids
    let step : Bool × List ApiCall × Server :=
      match p.state with
      | .present => userRoleAddLoop check u.id existing_list p.role_ids (false, [], srv)
      | .absent =>
        let active_role_ids := srv.roles.map (fun r => r.id)
        userRoleRemoveLoop check u.id existing_list active_role_ids p.role_ids
          (false, [⟨.get, .roles, .empty⟩], srv)
    let srv1 := step.2.2
    { outcome := .ok step.1 ((srv1.getUserById u.id).elim .null .record)
      calls := step.2.1 ++ [⟨.get, .user u.id, .empty⟩]
      server := srv1 }

/-! ## Agent NAT config module (`tetration_agent_nat_config.py`) -/

/-- Parameters of `tetration_agent_nat_config` (`main`). -/
structure NatParams where
  state : St
  src_subnet : Option String
  src_port_range_start : Option Int
  src_port_range_end : Option Int
  vrf_name : Option String
  vrf_id : Option Int
  nat_config_id : Option String
deriving DecidableEq, Repr

/-- The result `object` of `tetration_agent_nat_config`. -/
inductive NatObj
  | null
  | record (c : NatConfig)
  | payload (p : NatPayload)
deriving DecidableEq, Repr

/-- Modelled from the spec: `get_object` on the NAT-config collection with an
id filter. -/
def Server.findNatById (s : Server) (i : String) : Option NatConfig :=
  s.natConfigs.find? (fun c => c.id == i)

/-- Modelled from the spec: `get_object` on the NAT-config collection with the
vrf_id + src_subnet + port-range filter.  A missing (`None`) filter value
matches no record, as in the source's filter dict. -/
def Server.findNatByFields (s : Server) (vid : Int) (subnet : Option String)
    (pstart pend : Option Int) : Option NatConfig :=
  s.natConfigs.find? (fun c =>
    c.vrf_id == vid && some c.src_subnet == subnet &&
    some c.src_port_range_start == pstart && some c.src_port_range_end == pend)

/-- Modelled from the spec: POST of the NAT-config collection creates a record
with the server-assigned fresh id. -/
def Server.createNat (s : Server) (pl : NatPayload) : Server × NatConfig :=
  let c : NatConfig :=
    { id := s.freshNatId
      vrf_id := pl.vrf_id.getD 0
      src_subnet := pl.src_subnet.getD ("")
      src_port_range_start := pl.src_port_range_start.getD 0
      src_port_range_end := pl.src_port_range_end.getD 0 }
  ({ s with natConfigs := s.natConfigs ++ [c] }, c)

/-- Modelled from the spec: DELETE of `agentnatconfig/<id>` removes the
record. -/
def Server.deleteNat (s : Server) (i : String) : Server :=
  { s with natConfigs := s.natConfigs.filter (fun c => c.id != i) }

/-- `main` of `tetration_agent_nat_config.py`: the absent-parameter check, the
three-way lookup (by nat_config_id, by vrf_id, or by vrf_name with its fatal
resolution), then the present/absent/query dispatch. -/
def natMain (p : NatParams) (check : Bool) (srv : Server) : Run NatObj :=
  if p.state = .absent ∧ ¬strTruthy p.nat_config_id ∧
      ¬(intTruthy p.vrf_id ∨ strTruthy p.vrf_name) ∧
      ¬(strTruthy p.src_subnet ∧ intTruthy p.src_port_range_end ∧
        intTruthy p.src_port_range_start) then
    { outcome := .failed, calls := [], server := srv }
  else
    let look : Option (Option NatConfig × Option Int) :=
      if strTruthy p.nat_config_id then
        some (srv.findNatById (p.nat_config_id.getD ("")), p.vrf_id)
      else if intTruthy p.vrf_id then
        some (srv.findNatByFields (p.vrf_id.getD 0) p.src_subnet
          p.src_port_range_start p.src_port_range_end, p.vrf_id)
      else
        match p.vrf_name.bind (fun n => srv.findTenantByName n) with
        | none => none
        | some t =>
          some (srv.findNatByFields t.id p.src_subnet
            p.src_port_range_start p.src_port_range_end, some t.id)
    match look with
    | none =>
      -- 'A vrf could not be found matching vrf name' — fatal in every state
      { outcome := .failed, calls := [], server := srv }
    | some l =>
      let existing := l.1
      let vid := l.2
      match p.state with
      | .present =>
        let pl : NatPayload :=
          { src_subnet := p.src_subnet
            src_port_range_start := p.src_port_range_start
            src_port_range_end := p.src_port_range_end
            vrf_id := vid }
        match existing with
        | none =>
          if check then
            { outcome := .ok true (.payload pl), calls := [], server := srv }
          else
            let cn := srv.createNat pl
            { outcome := .ok true (.record cn.2)
              calls := [⟨.post, .natConfigs, .nat pl⟩]
              server := cn.1 }
        | some ex => { outcome := .ok false (.record ex), calls := [], server := srv }
      | .absent =>
        match existing with
        | none => { outcome := .ok false .null, calls := [], server := srv }
        | some ex =>
          if check then
            { outcome := .ok true .null, calls := [], server := srv }
          else
            { outcome := .ok true .null
              calls := [⟨.delete, .natConfig ex.id, .empty⟩]
              server := srv.deleteNat ex.id }
      | .query =>
        { outcome := .ok false (existing.elim .null .record), calls := [], server := srv }

/-! ## Interface intent module (`tetration_interface_intent.py`) -/

/-- Parameters of `tetration_interface_intent` (`main`).  The source's
`vrf_id` is a string compared against the integer ids in the intent list; it
is modelled as the integer. -/
structure IntentParams where
  state : St
  vrf_name : Option String
  vrf_id : Option Int
  inventory_filter_id : Option String
  inventory_filter_name : Option String
  query_type : QT
deriving DecidableEq, Repr

/-- The result `object` of `tetration_interface_intent`: null, a single
intent, the intent list, or (check-mode present) the intent list whose last
element was annotated with the resolved filter record and VRF name. -/
inductive IntentObj
  | null
  | one (i : Intent)
  | list (l : List Intent)
  | annotated (l : List Intent) (inventory_filter : Option InvFilter) (vrf_name : String)
deriving DecidableEq, Repr

/-- Modelled from the spec: `get_object` on the app-scopes collection with a
name filter. -/
def Server.findScopeByName (s : Server) (n : String) : Option Scope :=
  s.scopes.find? (fun sc => sc.name == n)

/-- Modelled from the spec: `get_object` on the inventory-filters collection
with a name + app_scope_id filter. -/
def Server.findFilterByName (s : Server) (n sc : String) : Option InvFilter :=
  s.filters.find? (fun f => f.name == n && f.app_scope_id == sc)

/-- Modelled from the spec: `get_object` on the inventory-filters collection
with an id filter. -/
def Server.findFilterById (s : Server) (i : String) : Option InvFilter :=
  s.filters.find? (fun f => f.id == i)

/-- The scan of `tetration_interface_intent.py` lines 216-221: find the index
of the first intent whose `vrf_id` equals the resolved VRF id, and whether its
`inventory_filter_id` differs from the resolved filter id (the source's
`result['changed'] = True`).  Comparisons are against optional resolved
values, as in the source where both may still be `None` under `query`. -/
def findIntentTarget (vid : Option Int) (fid : Option String) :
    List Intent → Nat → Option Nat × Bool
  | [], _ => (none, false)
  | intent :: rest, idx =>
    if some intent.vrf_id = vid then
      (some idx, decide (some intent.inventory_filter_id ≠ fid))
    else findIntentTarget vid fid rest (idx + 1)

/-- `main` of `tetration_interface_intent.py`: parameter checks, VRF and
inventory-filter resolution (fatal under non-query states; the Default-scope
lookup is fatal under every state), the intent-list scan, then the
present/absent/query dispatch. -/
def intentMain (p : IntentParams) (check : Bool) (srv : Server) : Run IntentObj :=
  if (p.state ≠ .query ∨ p.query_type ≠ .all) ∧
      ¬(strTruthy p.vrf_name ∨ p.vrf_id.isSome) then
    { outcome := .failed, calls := [], server := srv }
  else if (p.state ≠ .query ∨ p.query_type ≠ .all) ∧
      ¬(strTruthy p.inventory_filter_name ∨ strTruthy p.inventory_filter_id) then
    { outcome := .failed, calls := [], server := srv }
  else
    -- Get VRF ID if name passed
    let vid : Option Int :=
      if p.vrf_id.isSome then p.vrf_id
      else (p.vrf_name.bind (fun n => srv.findTenantByName n)).map (fun t => t.id)
    if ¬vid.isSome ∧ p.state ≠ .query then
      { outcome := .failed, calls := [], server := srv }
    else
      -- Get inventory filter id if name is passed
      let fidLook : Option (Option String) :=
        if strTruthy p.inventory_filter_id then some p.inventory_filter_id
        else
          match srv.findScopeByName ("Default") with
          | none => none
          | some sc =>
            some ((p.inventory_filter_name.bind
              (fun n => srv.findFilterByName n sc.id)).map (fun f => f.id))
      match fidLook with
      | none =>
        -- 'An app scope cannot be found with name: Default' — fatal always
        { outcome := .failed, calls := [], server := srv }
      | some fid =>
        if ¬fid.isSome ∧ p.state ≠ .query then
          { outcome := .failed, calls := [], server := srv }
        else
          let current := srv.intents
          let calls0 : List ApiCall := [⟨.get, .intents, .empty⟩]
          let scan := findIntentTarget vid fid current 0
          let target := scan.1
          let changed0 := scan.2
          match p.state with
          | .present =>
            let newObj : Intent := { vrf_id := vid.getD 0, inventory_filter_id := fid.getD ("") }
            if ¬target.isSome ∨ changed0 then
              let newIntents :=
                if ¬changed0 then current ++ [newObj]
                else current.set (target.getD 0) newObj
              if ¬check then
                let srv1 := { srv with intents := newIntents }
                { outcome := .ok true (.list srv1.intents)
                  calls := calls0 ++ [⟨.post, .intents, .intents newIntents⟩, ⟨.get, .intents, .empty⟩]
                  server := srv1 }
              else
                let fo := srv.findFilterById (fid.getD (""))
                match vid.bind (fun v => srv.findTenantById v) with
                | none => { outcome := .crash, calls := calls0, server := srv }
                | some vt =>
                  { outcome := .ok true (.annotated newIntents fo vt.name)
                    calls := calls0, server := srv }
            else
              { outcome := .ok false (.list current), calls := calls0, server := srv }
          | .absent =>
            if target.isSome ∧ ¬changed0 then
              let newIntents := current.eraseIdx (target.getD 0)
              if ¬check then
                let srv1 := { srv with intents := newIntents }
                { outcome := .ok true (.list newIntents)
                  calls := calls0 ++ [⟨.post, .intents, .intents newIntents⟩]
                  server := srv1 }
              else
                { outcome := .ok true (.list newIntents), calls := calls0, server := srv }
            else if changed0 then
              { outcome := .failed, calls := calls0, server := srv }
            else
              { outcome := .ok false (.list current), calls := calls0, server := srv }
          | .query =>
            match p.query_type with
            | .single =>
              { outcome := .ok changed0
                  (match target.bind (fun i => current.get? i) with
                   | some it => .one it
                   | none => .null)
                calls := calls0, server := srv }
            | .all =>
              { outcome := .ok changed0 (.list current), calls := calls0, server := srv }

/-! ## Helpers for the claim statements -/

/-- The `changed` flag of a normal exit, if any. -/
def Outcome.changedVal {Obj : Type} : Outcome Obj → Option Bool
  | .ok c _ => some c
  | _ => none

/-- Whether a target is the capabilities sub-resource of some role. -/
def isCapTarget : Target → Bool
  | .roleCapabilities _ => true
  | _ => false

/-- Whether a target is the roles collection (the authoritative role list). -/
def isRolesTarget : Target → Bool
  | .roles => true
  | _ => false

/-! ## C1: check mode and the user module's re-enable path -/

/-- A server holding one disabled user. -/
def c1srv : Server :=
  { users := [{ id := "u1", email := "bob@example.com", first_name := some ("Bob")
                last_name := some ("Smith"), app_scope_id := none
                disabled_at := some 100, role_ids := [] }]
    scopes := [], roles := [], tenants := [], natConfigs := [], filters := []
    intents := [], freshUserId := "u2", freshRoleId := "r1", freshNatId := "n1" }

/-- A `present` request for that user's email. -/
def c1params : UserParams :=
  { state := .present, email := "bob@example.com", first_name := none
    last_name := none, app_scope_id := none, app_scope_name := none }

/-- C1: the claim that check mode never issues a mutating `run_method` call
fails on the code at this input: with check mode enabled, `present` on a
disabled user issues the re-enable POST (`users/<id>/enable`), because
`tetration_user.py` lines 254-259 have no `check_mode` guard around it. -/
theorem c1_check_mode_issues_reenable_post :
    (userMain c1params true 0 c1srv).calls =
      [⟨Method.post, Target.userEnable ("u1"), Payload.empty⟩] ∧
    Method.isMutating Method.post = true := by
  constructor
  · rfl
  · rfl

/-! ## C10: the user module's app-scope-name validation -/

/-- C10: under `present`, a truthy `app_scope_name` that either contains a
colon or does not resolve to any scope is fatal, and no `run_method` call
(mutating or otherwise) is issued — even when a scope with exactly that name
exists. -/
theorem c10_scope_name_colon_or_unresolved_fatal (p : UserParams) (srv : Server)
    (check : Bool) (now : Int)
    (hstate : p.state = St.present)
    (hname : strTruthy p.app_scope_name = true)
    (hfail : (p.app_scope_name.getD ("")).data.contains ':' = true ∨
      srv.scopes.find? (fun sc => sc.name == p.app_scope_name.getD ("")) = none) :
    (userMain p check now srv).outcome = Outcome.failed ∧
    (userMain p check now srv).calls = [] := by
  have h : userMain p check now srv =
      { outcome := Outcome.failed, calls := [], server := srv } := by
    unfold userMain userPresent
    rw [hstate]
    simp only [hname, if_true]
    rcases hfail with hc | hn
    · cases hfind : srv.scopes.find? (fun sc => sc.name == p.app_scope_name.getD ("")) with
      | none => simp [hfind]
      | some sc =>
        simp only [hfind]
        rw [if_pos hc]
    · simp [hn]
  rw [h]
  exact ⟨rfl, rfl⟩

/-- A scope whose name contains a colon, present on the server. -/
def c10srv : Server :=
  { users := [], scopes := [{ id := "s1", name := "Default:Datacenter" }]
    roles := [], tenants := [], natConfigs := [], filters := []
    intents := [], freshUserId := "u2", freshRoleId := "r1", freshNatId := "n1" }

/-- A `present` request naming that (existing) sub-scope. -/
def c10params : UserParams :=
  { state := .present, email := "bob@example.com", first_name := none
    last_name := none, app_scope_id := none
    app_scope_name := some ("Default:Datacenter") }

/-- Witness for C10 at a concrete input where the named scope exists. -/
theorem c10_witness :
    (userMain c10params false 0 c10srv).outcome = Outcome.failed ∧
    (userMain c10params false 0 c10srv).calls = [] :=
  c10_scope_name_colon_or_unresolved_fatal c10params c10srv false 0 rfl (by decide)
    (Or.inl (by decide))

/-! ## C7: resolution failures under query vs present/absent -/

/-- A server with no tenants (so no VRF name resolves). -/
def c7srv : Server :=
  { users := [], scopes := [], roles := [], tenants := [], natConfigs := []
    filters := [], intents := [], freshUserId := "u2", freshRoleId := "r1"
    freshNatId := "n1" }

/-- A NAT-config `query` naming a VRF that does not exist. -/
def c7params : NatParams :=
  { state := .query, src_subnet := some ("10.0.0.1/32")
    src_port_range_start := some 1, src_port_range_end := some 2
    vrf_name := some ("Missing"), vrf_id := none, nat_config_id := none }

/-- C7 counterexample: in the NAT-config module a VRF-name resolution failure
under state `query` is fatal (`fail_json` at `tetration_agent_nat_config.py`
line 244), not a non-fatal empty result as the claim states. -/
theorem c7_nat_query_resolution_fatal :
    (natMain c7params false c7srv).outcome = Outcome.failed := by
  rfl

/-- Scanning with an unresolved VRF id matches no intent. -/
theorem findIntentTarget_vid_none (fid : Option String) (l : List Intent) (k : Nat) :
    findIntentTarget none fid l k = (none, false) := by
  induction l generalizing k with
  | nil => rfl
  | cons i rest ih => simp [findIntentTarget, ih]

/-- C7 (amended): in the interface-intent module a VRF-name resolution failure
is non-fatal under `query` (empty result, no mutating call) and fatal under
`present`/`absent`; the NAT-config module's VRF-name resolution failure is
instead fatal under every state, including `query`. -/
theorem c7_amended_resolution_failure_behaviour :
    (∀ (p : IntentParams) (check : Bool) (srv : Server),
      p.state = St.query → p.query_type = QT.single →
      strTruthy p.vrf_name = true → p.vrf_id = none →
      p.vrf_name.bind (fun n => srv.findTenantByName n) = none →
      strTruthy p.inventory_filter_id = true →
      (intentMain p check srv).outcome = Outcome.ok false IntentObj.null ∧
      (intentMain p check srv).calls.all (fun c => !c.method.isMutating) = true) ∧
    (∀ (p : IntentParams) (check : Bool) (srv : Server),
      p.state ≠ St.query →
      strTruthy p.vrf_name = true → p.vrf_id = none →
      p.vrf_name.bind (fun n => srv.findTenantByName n) = none →
      strTruthy p.inventory_filter_id = true →
      (intentMain p check srv).outcome = Outcome.failed ∧
      (intentMain p check srv).calls = []) ∧
    (∀ (p : NatParams) (check : Bool) (srv : Server),
      p.nat_config_id = none → p.vrf_id = none →
      strTruthy p.vrf_name = true →
      p.vrf_name.bind (fun n => srv.findTenantByName n) = none →
      (natMain p check srv).outcome = Outcome.failed ∧
      (natMain p check srv).calls = []) := by
  refine ⟨?_, ?_, ?_⟩
  · intro p check srv hstate hqt hv hvid hbind hfid
    unfold intentMain
    simp only [hstate, hqt, hv, hvid, hbind, hfid]
    simp [findIntentTarget_vid_none, Method.isMutating]
  · intro p check srv hstate hv hvid hbind hfid
    unfold intentMain
    simp only [hv, hvid, hbind, hfid]
    simp [hstate]
  · intro p check srv hnc hvid hv hbind
    unfold natMain
    simp only [hnc, hvid, hv, hbind]
    simp [strTruthy, intTruthy]

/-- A concrete interface-intent query with an unresolvable VRF name. -/
def c7ip : IntentParams :=
  { state := .query, vrf_name := some ("Missing"), vrf_id := none
    inventory_filter_id := some ("f1"), inventory_filter_name := none
    query_type := .single }

/-- Witness for the amended C7 at concrete inputs. -/
theorem c7_amended_witness :
    ((intentMain c7ip false c7srv).outcome = Outcome.ok false IntentObj.null ∧
      (intentMain c7ip false c7srv).calls.all (fun c => !c.method.isMutating) = true) ∧
    ((intentMain { c7ip with state := .present } false c7srv).outcome = Outcome.failed ∧
      (intentMain { c7ip with state := .present } false c7srv).calls = []) ∧
    ((natMain c7params false c7srv).outcome = Outcome.failed ∧
      (natMain c7params false c7srv).calls = []) :=
  ⟨c7_amended_resolution_failure_behaviour.1 c7ip false c7srv rfl rfl (by decide) rfl rfl
      (by decide),
    c7_amended_resolution_failure_behaviour.2.1 { c7ip with state := .present } false c7srv
      (by decide) (by decide) rfl rfl (by decide),
    c7_amended_resolution_failure_behaviour.2.2 c7params false c7srv rfl rfl (by decide) rfl⟩

/-! ## C9: query can report changed=true in the interface-intent module -/

/-- C9: under `query` (direct VRF id and filter id), whenever the first intent
matching the resolved VRF has a differing `inventory_filter_id`, the module
reports `changed=true` while issuing no mutating call. -/
theorem c9_query_reports_changed (p : IntentParams) (check : Bool) (srv : Server)
    (hstate : p.state = St.query)
    (hv : p.vrf_id.isSome = true)
    (hfid : strTruthy p.inventory_filter_id = true)
    (hscan : (findIntentTarget p.vrf_id p.inventory_filter_id srv.intents 0).2 = true) :
    (intentMain p check srv).outcome.changedVal = some true ∧
    (intentMain p check srv).calls.all (fun c => !c.method.isMutating) = true := by
  unfold intentMain
  simp only [hstate, hv, hfid]
  cases hqt : p.query_type with
  | single =>
    simp [hv, hfid, hscan, hqt, Outcome.changedVal, Method.isMutating]
  | all =>
    simp [hv, hfid, hscan, hqt, Outcome.changedVal, Method.isMutating]

/-- A server holding one intent for VRF 5 with filter `f-old`. -/
def c9srv : Server :=
  { users := [], scopes := [], roles := [], tenants := [], natConfigs := []
    filters := [], intents := [{ vrf_id := 5, inventory_filter_id := "f-old" }]
    freshUserId := "u2", freshRoleId := "r1", freshNatId := "n1" }

/-- A query for VRF 5 with a different filter id. -/
def c9params : IntentParams :=
  { state := .query, vrf_name := none, vrf_id := some 5
    inventory_filter_id := some ("f-new"), inventory_filter_name := none
    query_type := .single }

/-- Witness for C9: a concrete input on which `query` returns
`changed=true`. -/
theorem c9_witness :
    (intentMain c9params false c9srv).outcome.changedVal = some true ∧
    (intentMain c9params false c9srv).calls.all (fun c => !c.method.isMutating) = true :=
  c9_query_reports_changed c9params false c9srv rfl rfl (by decide) (by decide)

/-! ## C3: absent on a nonexistent or already-deleted resource -/

/-- C3: `absent` on a nonexistent resource — or, for the user module, on an
already-disabled user — reports `changed=false` and issues no DELETE (in fact
no mutating call at all).  Stated for the three cited modules: user (by email,
nonexistent or disabled), tenant (by id or by name, no match), NAT config (by
config id, by VRF id, or by resolvable VRF name, no match). -/
theorem c3_absent_noop :
    (∀ (p : UserParams) (check : Bool) (now : Int) (srv : Server),
      p.state = St.absent →
      (srv.findUserByEmail p.email = none ∨
        (∃ u, srv.findUserByEmail p.email = some u ∧ u.disabled_at.isSome = true)) →
      (userMain p check now srv).outcome.changedVal = some false ∧
      (userMain p check now srv).calls = []) ∧
    (∀ (p : TenantParams) (check : Bool) (srv : Server),
      p.state = St.absent →
      ((∃ i, p.id = some i ∧ srv.findTenantById i = none) ∨
        (p.id = none ∧ ∃ n, p.name = some n ∧ n ≠ "" ∧ srv.findTenantByName n = none)) →
      (tenantMain p check srv).outcome = Outcome.ok false TenantObj.null ∧
      (tenantMain p check srv).calls.all (fun c => !c.method.isMutating) = true) ∧
    (∀ (p : NatParams) (check : Bool) (srv : Server),
      p.state = St.absent →
      ((∃ i, p.nat_config_id = some i ∧ i ≠ "" ∧ srv.findNatById i = none) ∨
        (strTruthy p.nat_config_id = false ∧
          ∃ v, p.vrf_id = some v ∧ v ≠ 0 ∧
            srv.findNatByFields v p.src_subnet p.src_port_range_start
              p.src_port_range_end = none) ∨
        (strTruthy p.nat_config_id = false ∧ intTruthy p.vrf_id = false ∧
          ∃ n t, p.vrf_name = some n ∧ n ≠ "" ∧ srv.findTenantByName n = some t ∧
            srv.findNatByFields t.id p.src_subnet p.src_port_range_start
              p.src_port_range_end = none)) →
      (natMain p check srv).outcome = Outcome.ok false NatObj.null ∧
      (natMain p check srv).calls = []) := by
  refine ⟨?_, ?_, ?_⟩
  · intro p check now srv hstate hmiss
    unfold userMain userAbsent
    rw [hstate]
    rcases hmiss with hn | ⟨u, hu, hd⟩
    · simp [hn, Outcome.changedVal]
    · simp [hu, hd, Outcome.changedVal]
  · intro p check srv hstate hmiss
    unfold tenantMain
    rcases hmiss with ⟨i, hi, hfind⟩ | ⟨hid, n, hn, hne, hfind⟩
    · simp [hstate, hi, hfind, Method.isMutating]
    · simp [hstate, hid, hn, hne, hfind, strTruthy, Method.isMutating]
  · intro p check srv hstate hmiss
    unfold natMain
    rcases hmiss with ⟨i, hi, hine, hfind⟩ | ⟨hnc, v, hv, hvne, hfind⟩ |
      ⟨hnc, hvi, n, t, hn, hne, hbind, hfind⟩
    · have h1 : strTruthy (some i) = true := by simp [strTruthy, hine]
      simp [hstate, hi, h1, hfind]
    · have h2 : intTruthy (some v) = true := by simp [intTruthy, hvne]
      simp [hstate, hnc, hv, h2, hfind]
    · have h3 : strTruthy (some n) = true := by simp [strTruthy, hne]
      simp [hstate, hnc, hvi, hn, h3, hbind, hfind]

/-- An empty server for the C3 witness. -/
def c3srv : Server :=
  { users := [], scopes := [], roles := [], tenants := [], natConfigs := []
    filters := [], intents := [], freshUserId := "u2", freshRoleId := "r1"
    freshNatId := "n1" }

/-- The concrete C3 witness parameters. -/
def c3up : UserParams :=
  { state := .absent, email := "x@y.z", first_name := none
    last_name := none, app_scope_id := none, app_scope_name := none }

/-- The concrete C3 tenant witness parameters. -/
def c3tp : TenantParams :=
  { state := .absent, name := some ("Eng"), id := none
    switch_vrfs := [], query_type := .single }

/-- The concrete C3 NAT witness parameters. -/
def c3np : NatParams :=
  { state := .absent, src_subnet := some ("10.0.0.1/32")
    src_port_range_start := some 1, src_port_range_end := some 2
    vrf_name := none, vrf_id := some 7, nat_config_id := none }

/-- Witness for C3 at concrete inputs (nonexistent user, tenant by name, NAT
config by VRF id). -/
theorem c3_witness :
    ((userMain c3up false 0 c3srv).outcome.changedVal = some false ∧
      (userMain c3up false 0 c3srv).calls = []) ∧
    ((tenantMain c3tp false c3srv).outcome = Outcome.ok false TenantObj.null ∧
      (tenantMain c3tp false c3srv).calls.all (fun c => !c.method.isMutating) = true) ∧
    ((natMain c3np false c3srv).outcome = Outcome.ok false NatObj.null ∧
      (natMain c3np false c3srv).calls = []) :=
  ⟨c3_absent_noop.1 c3up false 0 c3srv rfl (Or.inl rfl),
    c3_absent_noop.2.1 c3tp false c3srv rfl
      (Or.inr ⟨rfl, "Eng", rfl, by decide, rfl⟩),
    c3_absent_noop.2.2 c3np false c3srv rfl
      (Or.inr (Or.inl ⟨rfl, 7, rfl, by decide, rfl⟩))⟩

/-! ## C4: the tenant differencer compares switch_vrfs as sets -/

/-- C4: when the tenant exists (looked up by id) and the name does not
conflict, `present` reports `changed=false` exactly when the existing
`switch_vrfs` list and the desired list contain the same set of elements —
order and duplicates are irrelevant. -/
theorem c4_switch_vrfs_set_comparison (ex : Tenant) (p : TenantParams)
    (check : Bool) (srv : Server)
    (hstate : p.state = St.present)
    (hid : ∃ i, p.id = some i ∧ srv.findTenantById i = some ex)
    (hname : p.name = none ∨ p.name = some ex.name) :
    (tenantMain p check srv).outcome.changedVal = some false ↔
      ex.switch_vrfs.toFinset = p.switch_vrfs.toFinset := by
  obtain ⟨i, hi, hfind⟩ := hid
  by_cases hv : ex.switch_vrfs.toFinset = p.switch_vrfs.toFinset
  · have hne : vrfSetNe ex.switch_vrfs p.switch_vrfs = false := by
      simp [vrfSetNe, hv]
    unfold tenantMain tenantPresent
    rcases hname with hnm | hnm <;>
      simp [hstate, hi, hfind, hnm, hne, Outcome.changedVal, hv]
  · have hne : vrfSetNe ex.switch_vrfs p.switch_vrfs = true := by
      simp [vrfSetNe, hv]
    unfold tenantMain tenantPresent
    rcases hname with hnm | hnm <;> cases check <;>
      simp [hstate, hi, hfind, hnm, hne, Outcome.changedVal, hv]

/-- The C4 witness server: one tenant `Eng` with VRFs `v1, v2`. -/
def c4srv : Server :=
  { users := [], scopes := [], roles := []
    tenants := [{ id := 1, name := "Eng", switch_vrfs := ["v1", "v2"] }]
    natConfigs := [], filters := [], intents := []
    freshUserId := "u2", freshRoleId := "r1", freshNatId := "n1" }

/-- The C4 witness request: same VRFs in the opposite order. -/
def c4p : TenantParams :=
  { state := .present, name := none, id := some 1
    switch_vrfs := ["v2", "v1"], query_type := .single }

/-- Witness for C4: with the same elements in a different order, the iff holds
at a concrete input. -/
theorem c4_witness :
    (tenantMain c4p false c4srv).outcome.changedVal = some false ↔
      (["v1", "v2"] : List String).toFinset = (["v2", "v1"] : List String).toFinset :=
  c4_switch_vrfs_set_comparison { id := 1, name := "Eng", switch_vrfs := ["v1", "v2"] }
    c4p false c4srv rfl ⟨1, rfl, rfl⟩ (Or.inl rfl)

/-! ## C8: the tenant id-generation fallback -/

/-- Soundness of the decrement loop: as long as some value in the scanned
window is free, the loop returns a free id that is the largest value `≤ start`
not in `existing`. -/
theorem tenantIdLoop_spec (existing : List Int) :
    ∀ (fuel : Nat) (start : Int), (∃ j < fuel, start - (j : Int) ∉ existing) →
      tenantIdLoop existing fuel start ∉ existing ∧
      tenantIdLoop existing fuel start ≤ start ∧
      ∀ k : Int, tenantIdLoop existing fuel start < k → k ≤ start → k ∈ existing := by
  intro fuel
  induction fuel with
  | zero =>
    intro start h
    obtain ⟨j, hj, _⟩ := h
    omega
  | succ n ih =>
    intro start h
    by_cases hmem : start ∈ existing
    · obtain ⟨j, hj, hfree⟩ := h
      have hj0 : j ≠ 0 := by
        intro h0
        rw [h0] at hfree
        simp at hfree
        exact hfree hmem
      obtain ⟨j', rfl⟩ := Nat.exists_eq_succ_of_ne_zero hj0
      have hwin : ∃ j < n, (start - 1) - (j : Int) ∉ existing := by
        refine ⟨j', by omega, ?_⟩
        have : start - 1 - (j' : Int) = start - ((j' + 1 : Nat) : Int) := by
          push_cast
          ring
        rw [this]
        exact hfree
      obtain ⟨h1, h2, h3⟩ := ih (start - 1) hwin
      have hloop : tenantIdLoop existing (n + 1) start = tenantIdLoop existing n (start - 1) := by
        simp [tenantIdLoop, hmem]
      refine ⟨by rw [hloop]; exact h1, by rw [hloop]; omega, ?_⟩
      intro k hk1 hk2
      rw [hloop] at hk1
      by_cases hks : k = start
      · rw [hks]; exact hmem
      · exact h3 k hk1 (by omega)
    · have hloop : tenantIdLoop existing (n + 1) start = start := by
        simp [tenantIdLoop, hmem]
      rw [hloop]
      exact ⟨hmem, le_refl _, by omega⟩

/-- Pigeonhole: within the window of `existing.length + 1` consecutive values
below the constant, some value is not in `existing`. -/
theorem exists_free_id (existing : List Int) :
    ∃ j < existing.length + 1, tenantIdStart - (j : Int) ∉ existing := by
  by_contra hcon
  push_neg at hcon
  have hsub : (Finset.range (existing.length + 1)).image
      (fun j : Nat => tenantIdStart - (j : Int)) ⊆ existing.toFinset := by
    intro x hx
    simp only [Finset.mem_image, Finset.mem_range] at hx
    obtain ⟨j, hj, rfl⟩ := hx
    simpa using hcon j hj
  have hinj : Set.InjOn (fun j : Nat => tenantIdStart - (j : Int))
      (Finset.range (existing.length + 1)) := by
    intro a _ b _ hab
    simp only at hab
    omega
  have hcard := Finset.card_le_card hsub
  rw [Finset.card_image_of_injOn hinj, Finset.card_range] at hcard
  have := existing.toFinset_card_le
  omega

/-- The call list the tenant module issues when creating a tenant with a
generated id: the id-generation GET, the create POST, and the final GET. -/
def tenantCreateCalls (vrfs : List String) (nm : Option String) (g : Int) : List ApiCall :=
  [⟨Method.get, Target.tenants, Payload.empty⟩,
    ⟨Method.post, Target.tenants,
      Payload.tenant { switch_vrfs := some vrfs, name := nm, id := some g }⟩,
    ⟨Method.get, Target.tenant g, Payload.empty⟩]

/-- C8: the generated fallback id is fresh (so the decrement loop terminates
within `existing.length + 1` steps) and is the largest integer `≤ 676769` not
among the existing ids; and in the tenant module's `present` path with no id
supplied and no matching tenant, the created record's POST payload carries
exactly this id. -/
theorem c8_tenant_id_generation :
    (∀ existing : List Int,
      genTenantId existing ∉ existing ∧
      genTenantId existing ≤ tenantIdStart ∧
      ∀ k : Int, genTenantId existing < k → k ≤ tenantIdStart → k ∈ existing) ∧
    (∀ (p : TenantParams) (srv : Server),
      p.state = St.present → p.id = none →
      (∃ n, p.name = some n ∧ n ≠ "" ∧ srv.findTenantByName n = none) →
      (tenantMain p false srv).calls =
        tenantCreateCalls p.switch_vrfs p.name
          (genTenantId (srv.tenants.map (fun t => t.id)))) := by
  constructor
  · intro existing
    exact tenantIdLoop_spec existing (existing.length + 1) tenantIdStart
      (exists_free_id existing)
  · intro p srv hstate hid hname
    obtain ⟨n, hn, hne, hfind⟩ := hname
    have hs : strTruthy (some n) = true := by simp [strTruthy, hne]
    unfold tenantMain tenantPresent
    simp [hstate, hid, hn, hs, hfind, genTenantId, tenantCreateCalls, Server.createTenant]

/-- The concrete C8 witness parameters. -/
def c8p : TenantParams :=
  { state := .present, name := some ("Eng"), id := none
    switch_vrfs := [], query_type := QT.single }

/-- Witness for C8: concrete fallback ids and the concrete call list on an
empty server. -/
theorem c8_witness :
    (genTenantId [676769, 676768] ∉ ([676769, 676768] : List Int) ∧
      genTenantId [676769, 676768] ≤ tenantIdStart ∧
      ∀ k : Int, genTenantId [676769, 676768] < k → k ≤ tenantIdStart →
        k ∈ ([676769, 676768] : List Int)) ∧
    (tenantMain c8p false c3srv).calls =
      tenantCreateCalls c8p.switch_vrfs c8p.name
        (genTenantId (c3srv.tenants.map (fun t => t.id))) :=
  ⟨c8_tenant_id_generation.1 [676769, 676768],
    c8_tenant_id_generation.2 c8p c3srv rfl rfl ⟨"Eng", rfl, by decide, rfl⟩⟩

/-! ## C5: role capabilities are append-only -/

/-- A call is harmless for the append-only property when it does not target a
capabilities sub-resource, or is the add POST. -/
def capPostOnly (c : ApiCall) : Bool :=
  !isCapTarget c.target || c.method == Method.post

/-- The capability step only ever issues the add POST. -/
theorem roleCapabilityStep_calls_post (check : Bool) (srv : Server)
    (existing : Option Role) (idv : Option String) (p : RoleParams) :
    (roleCapabilityStep check srv existing idv p).2.1.all capPostOnly = true := by
  unfold roleCapabilityStep
  cases hc : p.capability with
  | none => simp
  | some cap =>
    simp only
    split
    · simp
    · split
      · simp
      · simp [capPostOnly, isCapTarget]

/-- The `present` branch only ever touches a capabilities target with the add
POST (given the lookup-phase calls also satisfy this). -/
theorem rolePresent_calls_post (check : Bool) (srv : Server) (existing : Option Role)
    (idv : Option String) (p : RoleParams) (calls0 : List ApiCall)
    (h0 : calls0.all capPostOnly = true) :
    (rolePresent check srv existing idv p calls0).calls.all capPostOnly = true := by
  unfold rolePresent
  cases existing with
  | none =>
    cases check <;>
      · simp only
        repeat' split
        all_goals
          simp only [List.all_append, h0, roleCapabilityStep_calls_post,
            Bool.true_and, Bool.and_true]
        all_goals simp [capPostOnly, isCapTarget]
  | some ex =>
    cases hd : roleDiff ex p <;> cases check <;>
      · simp only [hd]
        repeat' split
        all_goals
          simp only [List.all_append, h0, roleCapabilityStep_calls_post,
            Bool.true_and, Bool.and_true]
        all_goals simp [capPostOnly, isCapTarget]

/-- C5: (i) when the requested capability pair is already among the existing
role's (ability, app_scope_id) pairs, no call touches the capabilities
sub-resource and `changed` is exactly the name/description diff; (ii) when the
pair is absent (and check mode is off) the add POST to the capabilities
sub-resource is issued; (iii) on every input, any call the role module issues
against a capabilities target is a POST — there is no removal path. -/
theorem c5_capabilities_append_only :
    (∀ (p : RoleParams) (check : Bool) (srv : Server) (ex : Role) (i : String)
        (a : Ability) (sc : String),
      p.state = St.present → p.id = some i → srv.getRoleById i = some ex →
      p.capability = some (a, sc) →
      (capMap a, sc) ∈ ex.capabilities.map (fun c => (c.ability, c.app_scope_id)) →
      (roleMain p check srv).calls.all (fun c => !isCapTarget c.target) = true ∧
      (roleMain p check srv).outcome.changedVal = some (roleDiff ex p)) ∧
    (∀ (p : RoleParams) (srv : Server) (ex : Role) (i : String)
        (a : Ability) (sc : String),
      p.state = St.present → p.id = some i → srv.getRoleById i = some ex →
      p.capability = some (a, sc) →
      (capMap a, sc) ∉ ex.capabilities.map (fun c => (c.ability, c.app_scope_id)) →
      (⟨Method.post, Target.roleCapabilities i, Payload.cap (some sc) (capMap a)⟩ : ApiCall) ∈
        (roleMain p false srv).calls) ∧
    (∀ (p : RoleParams) (check : Bool) (srv : Server),
      (roleMain p check srv).calls.all capPostOnly = true) := by
  refine ⟨?_, ?_, ?_⟩
  · intro p check srv ex i a sc hstate hi hfind hcap hmem
    unfold roleMain rolePresent roleCapabilityStep
    cases hd : roleDiff ex p <;> cases check <;>
      simp [hstate, hi, hfind, hcap, hmem, hd, Outcome.changedVal, isCapTarget]
  · intro p srv ex i a sc hstate hi hfind hcap hmem
    unfold roleMain rolePresent roleCapabilityStep
    cases hd : roleDiff ex p <;>
      simp [hstate, hi, hfind, hcap, hmem, hd]
  · intro p check srv
    unfold roleMain
    rcases hpid : p.id with _ | i
    · rcases hpn : p.name with _ | n
      · cases hst : p.state <;>
          simp [hpid, hpn, hst, rolePresent_calls_post]
      · cases hfn : srv.findRoleByName n p.app_scope_id with
        | none =>
          cases hst : p.state <;>
            simp [hpid, hpn, hst, hfn, rolePresent_calls_post]
        | some r =>
          cases hst : p.state <;> cases hg : srv.getRoleById r.id <;> cases check <;>
            simp [hpid, hpn, hst, hfn, hg, rolePresent_calls_post, capPostOnly, isCapTarget,
              List.all_append]
    · cases hfi : srv.getRoleById i with
      | none =>
        cases hst : p.state <;>
          simp [hpid, hst, hfi, rolePresent_calls_post]
      | some r =>
        cases hst : p.state <;> cases check <;>
          simp [hpid, hst, hfi, rolePresent_calls_post, capPostOnly, isCapTarget,
            List.all_append]

/-- The C5 witness server: one role with one capability. -/
def c5srv : Server :=
  { users := [], scopes := []
    roles := [{ id := "r7", name := "reader", description := some ("ro")
                app_scope_id := "", capabilities := [{ ability := "SCOPE_READ", app_scope_id := "s1" }] }]
    tenants := [], natConfigs := [], filters := [], intents := []
    freshUserId := "u2", freshRoleId := "r8", freshNatId := "n1" }

/-- C5 witness params: re-request the attached capability. -/
def c5p : RoleParams :=
  { state := .present, name := none, description := none, app_scope_id := ""
    id := some ("r7"), capability := some (Ability.read, "s1") }

/-- The role record of the C5 witness server. -/
def c5role : Role :=
  { id := "r7", name := "reader", description := some ("ro")
    app_scope_id := "", capabilities := [{ ability := "SCOPE_READ", app_scope_id := "s1" }] }

/-- C5 witness params requesting a capability that is not attached. -/
def c5pNew : RoleParams :=
  { state := .present, name := none, description := none, app_scope_id := ""
    id := some ("r7"), capability := some (Ability.write, "s1") }

/-- Witness for C5 at concrete inputs: re-adding an attached pair is a no-op,
adding a new pair issues the capabilities POST, and all capability-targeted
calls of those runs are POSTs. -/
theorem c5_witness :
    ((roleMain c5p false c5srv).calls.all (fun c => !isCapTarget c.target) = true ∧
      (roleMain c5p false c5srv).outcome.changedVal = some (roleDiff c5role c5p)) ∧
    ((⟨Method.post, Target.roleCapabilities ("r7"),
        Payload.cap (some ("s1")) (capMap Ability.write)⟩ : ApiCall) ∈
      (roleMain c5pNew false c5srv).calls) ∧
    (roleMain c5p true c5srv).calls.all capPostOnly = true :=
  ⟨c5_capabilities_append_only.1 c5p false c5srv c5role ("r7") Ability.read ("s1")
      rfl rfl rfl rfl (by decide),
    c5_capabilities_append_only.2.1 c5pNew c5srv c5role ("r7") Ability.write ("s1")
      rfl rfl rfl rfl (by decide),
    c5_capabilities_append_only.2.2 c5p true c5srv⟩

/-! ## C6: union / difference semantics of the user-role-binding module -/

/-- The role list of the record a user-role run returns, if any. -/
def runRoleIds (r : Run UserRoleObj) : Option (List String) :=
  match r.outcome with
  | .ok _ (.record u) => some u.role_ids
  | _ => none

/-- `find?` by id commutes with an id-preserving pointwise update. -/
theorem find?_update (l : List User) (i : String) (f : User → User)
    (hf : ∀ u : User, (f u).id = u.id) :
    (l.map (fun u => if u.id == i then f u else u)).find? (fun u => u.id == i) =
      (l.find? (fun u => u.id == i)).map f := by
  induction l with
  | nil => rfl
  | cons u rest ih =>
    simp only [List.map_cons]
    have hcons : ∀ (x : User) (xs : List User),
        List.find? (fun v => v.id == i) (x :: xs) =
          match (x.id == i) with
          | true => some x
          | false => List.find? (fun v => v.id == i) xs := fun x xs => rfl
    by_cases h : (u.id == i) = true
    · rw [if_pos h, hcons, hcons, hf u, h]
      rfl
    · have hfalse : (u.id == i) = false := by simpa using h
      rw [if_neg h, hcons, hcons, hfalse]
      exact ih

/-- Effect of the add_role PUT on the fetched user record. -/
theorem getUserById_addRole (s : Server) (i r : String) :
    (s.addRoleToUser i r).getUserById i =
      (s.getUserById i).map (fun u =>
        { u with role_ids := if r ∈ u.role_ids then u.role_ids else u.role_ids ++ [r] }) := by
  unfold Server.addRoleToUser Server.getUserById
  exact find?_update _ _ _ (fun u => rfl)

/-- Effect of the remove_role DELETE on the fetched user record. -/
theorem getUserById_removeRole (s : Server) (i r : String) :
    (s.removeRoleFromUser i r).getUserById i =
      (s.getUserById i).map (fun u =>
        { u with role_ids := u.role_ids.filter (fun x => x != r) }) := by
  unfold Server.removeRoleFromUser Server.getUserById
  exact find?_update _ _ _ (fun u => rfl)

/-- The add loop computes the union: the final role list of the user contains
exactly the original roles plus the requested roles not in the snapshot
list. -/
theorem userRoleAddLoop_roleIds (uid : String) (exlist : List String) :
    ∀ (req : List String) (b : Bool) (cs : List ApiCall) (s : Server) (u : User),
      s.getUserById uid = some u →
      ∃ u2, (userRoleAddLoop false uid exlist req (b, cs, s)).2.2.getUserById uid = some u2 ∧
        ∀ r, r ∈ u2.role_ids ↔ r ∈ u.role_ids ∨ (r ∈ req ∧ r ∉ exlist) := by
  intro req
  induction req with
  | nil =>
    intro b cs s u hu
    exact ⟨u, hu, by simp⟩
  | cons role rest ih =>
    intro b cs s u hu
    unfold userRoleAddLoop
    by_cases hmem : role ∈ exlist
    · rw [if_neg (by simpa using hmem)]
      obtain ⟨u2, h2, h3⟩ := ih b cs s u hu
      refine ⟨u2, h2, fun r => ?_⟩
      rw [h3 r]
      simp only [List.mem_cons]
      constructor
      · rintro (h | ⟨h1, h2⟩)
        · exact Or.inl h
        · exact Or.inr ⟨Or.inr h1, h2⟩
      · rintro (h | ⟨h1 | h1, h2⟩)
        · exact Or.inl h
        · rw [h1] at h2; exact absurd hmem h2
        · exact Or.inr ⟨h1, h2⟩
    · rw [if_pos hmem]
      simp only [Bool.false_eq_true, if_false]
      have hu2 : (s.addRoleToUser uid role).getUserById uid =
          some { u with role_ids := if role ∈ u.role_ids then u.role_ids else u.role_ids ++ [role] } := by
        rw [getUserById_addRole, hu]
        rfl
      obtain ⟨u2, h2, h3⟩ := ih true (cs ++ [⟨Method.put, Target.userAddRole uid, Payload.roleId role⟩])
        (s.addRoleToUser uid role) _ hu2
      refine ⟨u2, h2, fun r => ?_⟩
      rw [h3 r]
      simp only [List.mem_cons]
      have hadd : ∀ l : List String,
          (r ∈ if role ∈ l then l else l ++ [role]) ↔ r ∈ l ∨ r = role := by
        intro l
        by_cases hm : role ∈ l
        · simp only [if_pos hm]
          constructor
          · exact Or.inl
          · rintro (h | h)
            · exact h
            · rw [h]; exact hm
        · simp [if_neg hm, List.mem_append]
      rw [hadd]
      constructor
      · rintro ((h | h) | ⟨h1, h2⟩)
        · exact Or.inl h
        · exact Or.inr ⟨Or.inl h, by rw [h]; exact hmem⟩
        · exact Or.inr ⟨Or.inr h1, h2⟩
      · rintro (h | ⟨h1 | h1, h2⟩)
        · exact Or.inl (Or.inl h)
        · exact Or.inl (Or.inr h1)
        · exact Or.inr ⟨h1, h2⟩

/-- The add loop never touches the roles collection. -/
theorem userRoleAddLoop_calls (check : Bool) (uid : String) (exlist : List String) :
    ∀ (req : List String) (b : Bool) (cs : List ApiCall) (s : Server),
      (userRoleAddLoop check uid exlist req (b, cs, s)).2.1.all
          (fun c => !isRolesTarget c.target) =
        cs.all (fun c => !isRolesTarget c.target) := by
  intro req
  induction req with
  | nil => intro b cs s; rfl
  | cons role rest ih =>
    intro b cs s
    unfold userRoleAddLoop
    by_cases hmem : role ∈ exlist
    · rw [if_neg (by simpa using hmem)]
      exact ih b cs s
    · rw [if_pos hmem]
      cases check with
      | true =>
        simp only [if_true]
        exact ih true cs s
      | false =>
        simp only [Bool.false_eq_true, if_false]
        rw [ih]
        simp [List.all_append, isRolesTarget]

/-- The remove loop computes the guarded difference: a role survives unless it
was requested, was in the snapshot list, and is in the authoritative list. -/
theorem userRoleRemoveLoop_roleIds (uid : String) (exlist active : List String) :
    ∀ (req : List String) (b : Bool) (cs : List ApiCall) (s : Server) (u : User),
      s.getUserById uid = some u →
      ∃ u2, (userRoleRemoveLoop false uid exlist active req (b, cs, s)).2.2.getUserById uid =
          some u2 ∧
        ∀ r, r ∈ u2.role_ids ↔ r ∈ u.role_ids ∧ ¬(r ∈ req ∧ r ∈ exlist ∧ r ∈ active) := by
  intro req
  induction req with
  | nil =>
    intro b cs s u hu
    exact ⟨u, hu, by simp⟩
  | cons role rest ih =>
    intro b cs s u hu
    unfold userRoleRemoveLoop
    by_cases hmem : role ∈ exlist
    · rw [if_pos hmem]
      by_cases hact : role ∈ active
      · rw [if_pos (by exact ⟨by simp, hact⟩)]
        have hu2 : (s.removeRoleFromUser uid role).getUserById uid =
            some { u with role_ids := u.role_ids.filter (fun x => x != role) } := by
          rw [getUserById_removeRole, hu]
          rfl
        obtain ⟨u2, h2, h3⟩ := ih true
          (cs ++ [⟨Method.delete, Target.userRemoveRole uid, Payload.roleId role⟩])
          (s.removeRoleFromUser uid role) _ hu2
        refine ⟨u2, h2, fun r => ?_⟩
        rw [h3 r]
        simp only [List.mem_filter, bne_iff_ne, ne_eq, List.mem_cons]
        constructor
        · rintro ⟨⟨hl, hne⟩, hrest⟩
          refine ⟨hl, ?_⟩
          rintro ⟨h1 | h1, h2, h4⟩
          · exact hne h1
          · exact hrest ⟨h1, h2, h4⟩
        · rintro ⟨hl, hno⟩
          have hne : r ≠ role := by
            intro h
            exact hno ⟨Or.inl h, h ▸ hmem, h ▸ hact⟩
          refine ⟨⟨hl, hne⟩, ?_⟩
          rintro ⟨h1, h2, h4⟩
          exact hno ⟨Or.inr h1, h2, h4⟩
      · rw [if_neg (by rintro ⟨-, h⟩; exact hact h)]
        obtain ⟨u2, h2, h3⟩ := ih true cs s u hu
        refine ⟨u2, h2, fun r => ?_⟩
        rw [h3 r]
        simp only [List.mem_cons]
        constructor
        · rintro ⟨hl, hno⟩
          refine ⟨hl, ?_⟩
          rintro ⟨h1 | h1, h2, h4⟩
          · rw [h1] at h4; exact hact h4
          · exact hno ⟨h1, h2, h4⟩
        · rintro ⟨hl, hno⟩
          refine ⟨hl, ?_⟩
          rintro ⟨h1, h2, h4⟩
          exact hno ⟨Or.inr h1, h2, h4⟩
    · rw [if_neg hmem]
      obtain ⟨u2, h2, h3⟩ := ih b cs s u hu
      refine ⟨u2, h2, fun r => ?_⟩
      rw [h3 r]
      simp only [List.mem_cons]
      constructor
      · rintro ⟨hl, hno⟩
        refine ⟨hl, ?_⟩
        rintro ⟨h1 | h1, h2, h4⟩
        · rw [h1] at h2; exact hmem h2
        · exact hno ⟨h1, h2, h4⟩
      · rintro ⟨hl, hno⟩
        refine ⟨hl, ?_⟩
        rintro ⟨h1, h2, h4⟩
        exact hno ⟨Or.inr h1, h2, h4⟩

/-- Every call the remove loop appends is a remove DELETE whose role id was
requested, in the snapshot list, and in the authoritative list. -/
theorem userRoleRemoveLoop_calls (uid : String) (exlist active : List String) :
    ∀ (req : List String) (b : Bool) (cs : List ApiCall) (s : Server),
      ∀ c ∈ (userRoleRemoveLoop false uid exlist active req (b, cs, s)).2.1,
        c ∈ cs ∨ ∃ r, c = ⟨Method.delete, Target.userRemoveRole uid, Payload.roleId r⟩ ∧
          r ∈ req ∧ r ∈ exlist ∧ r ∈ active := by
  intro req
  induction req with
  | nil =>
    intro b cs s c hc
    exact Or.inl hc
  | cons role rest ih =>
    intro b cs s c hc
    unfold userRoleRemoveLoop at hc
    by_cases hmem : role ∈ exlist
    · rw [if_pos hmem] at hc
      by_cases hact : role ∈ active
      · rw [if_pos (by exact ⟨by simp, hact⟩)] at hc
        rcases ih true (cs ++ [⟨Method.delete, Target.userRemoveRole uid, Payload.roleId role⟩])
            (s.removeRoleFromUser uid role) c hc with h | ⟨r, hr, h1, h2, h4⟩
        · rcases List.mem_append.mp h with h | h
          · exact Or.inl h
          · refine Or.inr ⟨role, ?_, List.mem_cons_self _ _, hmem, hact⟩
            simpa using h
        · exact Or.inr ⟨r, hr, List.mem_cons_of_mem _ h1, h2, h4⟩
      · rw [if_neg (by rintro ⟨-, h⟩; exact hact h)] at hc
        rcases ih true cs s c hc with h | ⟨r, hr, h1, h2, h4⟩
        · exact Or.inl h
        · exact Or.inr ⟨r, hr, List.mem_cons_of_mem _ h1, h2, h4⟩
    · rw [if_neg hmem] at hc
      rcases ih b cs s c hc with h | ⟨r, hr, h1, h2, h4⟩
      · exact Or.inl h
      · exact Or.inr ⟨r, hr, List.mem_cons_of_mem _ h1, h2, h4⟩

/-- The C6 counterexample server: one active user with no roles, and an empty
authoritative roles collection. -/
def c6srv : Server :=
  { users := [{ id := "u1", email := "e@x.y", first_name := none, last_name := none
                app_scope_id := none, disabled_at := none, role_ids := [] }]
    scopes := [], roles := [], tenants := [], natConfigs := [], filters := []
    intents := [], freshUserId := "u2", freshRoleId := "r1", freshNatId := "n1" }

/-- The C6 counterexample request: add a role id that is not in the
authoritative roles collection. -/
def c6p : UserRoleParams :=
  { state := .present, email := "e@x.y", role_ids := ["A"] }

/-- C6 counterexample: on the `present` path the module issues the add PUT for
role id `A` even though `A` is not in the authoritative roles collection, and
it never fetches the roles collection — so requested ids are *not* resolved
against the authoritative role list before the add call on the present path. -/
theorem c6_present_add_without_authoritative_check :
    (userRoleMain c6p false c6srv).calls =
      [⟨Method.put, Target.userAddRole ("u1"), Payload.roleId ("A")⟩,
        ⟨Method.get, Target.user ("u1"), Payload.empty⟩] ∧
    ("A" ∈ c6srv.roles.map (fun ro => ro.id) → False) ∧
    (userRoleMain c6p false c6srv).calls.all (fun c => !isRolesTarget c.target) = true := by
  refine ⟨by rfl, by decide, by decide⟩

/-- C6 (amended): with check mode off, `present` computes the union of the
user's roles and the requested ids without consulting the authoritative roles
collection (no GET of the roles collection is issued); `absent` removes a
requested id from the user's role list only when it is also in the
authoritative roles collection, and every remove DELETE it issues names a role
id that was requested, held by the user, and present in the authoritative
list. -/
theorem c6_amended_union_difference :
    (∀ (p : UserRoleParams) (srv : Server) (u : User),
      p.state = St2.present →
      srv.findActiveUserByEmail p.email = some u →
      srv.getUserById u.id = some u →
      ∃ ids, runRoleIds (userRoleMain p false srv) = some ids ∧
        (∀ r, r ∈ ids ↔ r ∈ u.role_ids ∨ r ∈ p.role_ids) ∧
        (userRoleMain p false srv).calls.all (fun c => !isRolesTarget c.target) = true) ∧
    (∀ (p : UserRoleParams) (srv : Server) (u : User),
      p.state = St2.absent →
      srv.findActiveUserByEmail p.email = some u →
      srv.getUserById u.id = some u →
      ∃ ids, runRoleIds (userRoleMain p false srv) = some ids ∧
        (∀ r, r ∈ ids ↔ r ∈ u.role_ids ∧
          ¬(r ∈ p.role_ids ∧ r ∈ srv.roles.map (fun ro => ro.id))) ∧
        (∀ c ∈ (userRoleMain p false srv).calls, ∀ r : String,
          c = ⟨Method.delete, Target.userRemoveRole u.id, Payload.roleId r⟩ →
          r ∈ p.role_ids ∧ r ∈ u.role_ids ∧ r ∈ srv.roles.map (fun ro => ro.id))) := by
  constructor
  · intro p srv u hstate hfind hget
    obtain ⟨u2, h2, h3⟩ :=
      userRoleAddLoop_roleIds u.id u.role_ids p.role_ids false [] srv u hget
    refine ⟨u2.role_ids, ?_, ?_, ?_⟩
    · unfold userRoleMain
      simp only [hfind, hstate]
      simp [runRoleIds, h2]
    · intro r
      rw [h3 r]
      constructor
      · rintro (h | ⟨h1, _⟩)
        · exact Or.inl h
        · exact Or.inr h1
      · rintro (h | h)
        · exact Or.inl h
        · by_cases hr : r ∈ u.role_ids
          · exact Or.inl hr
          · exact Or.inr ⟨h, hr⟩
    · unfold userRoleMain
      simp only [hfind, hstate]
      have hall := userRoleAddLoop_calls false u.id u.role_ids p.role_ids false [] srv
      simp only [List.all_append, hall]
      simp [isRolesTarget]
  · intro p srv u hstate hfind hget
    obtain ⟨u2, h2, h3⟩ :=
      userRoleRemoveLoop_roleIds u.id u.role_ids (srv.roles.map (fun ro => ro.id))
        p.role_ids false [⟨Method.get, Target.roles, Payload.empty⟩] srv u hget
    refine ⟨u2.role_ids, ?_, ?_, ?_⟩
    · unfold userRoleMain
      simp only [hfind, hstate]
      simp [runRoleIds, h2]
    · intro r
      rw [h3 r]
      constructor
      · rintro ⟨hl, hno⟩
        refine ⟨hl, ?_⟩
        rintro ⟨h1, h4⟩
        exact hno ⟨h1, hl, h4⟩
      · rintro ⟨hl, hno⟩
        refine ⟨hl, ?_⟩
        rintro ⟨h1, _, h4⟩
        exact hno ⟨h1, h4⟩
    · intro c hc r hcr
      unfold userRoleMain at hc
      simp only [hfind, hstate] at hc
      simp only [List.mem_append] at hc
      rcases hc with hc | hc
      · rcases userRoleRemoveLoop_calls u.id u.role_ids (srv.roles.map (fun ro => ro.id))
            p.role_ids false [⟨Method.get, Target.roles, Payload.empty⟩] srv c hc with
          h | ⟨r2, hr2, hq, he, ha⟩
        · rw [hcr] at h
          simp at h
        · rw [hcr] at hr2
          have hpe : r = r2 := by
            have h5 := congrArg ApiCall.payload hr2
            simpa using h5
          rw [hpe]
          exact ⟨hq, he, ha⟩
      · rw [hcr] at hc
        simp at hc

/-- Witness for the amended C6: a user holding roles A and B; `present [C]`
yields the union, `absent [A]` removes exactly A. -/
def c6srv2 : Server :=
  { users := [{ id := "u1", email := "e@x.y", first_name := none, last_name := none
                app_scope_id := none, disabled_at := none, role_ids := ["A", "B"] }]
    scopes := []
    roles := [{ id := "A", name := "a", description := none, app_scope_id := ""
                capabilities := [] },
              { id := "B", name := "b", description := none, app_scope_id := ""
                capabilities := [] }]
    tenants := [], natConfigs := [], filters := [], intents := []
    freshUserId := "u2", freshRoleId := "r1", freshNatId := "n1" }

/-- The user record of the C6 witness server. -/
def c6u : User :=
  { id := "u1", email := "e@x.y", first_name := none, last_name := none
    app_scope_id := none, disabled_at := none, role_ids := ["A", "B"] }

/-- C6 witness parameters for the absent path. -/
def c6pAbs : UserRoleParams :=
  { state := .absent, email := "e@x.y", role_ids := ["A"] }

/-- Witness for the amended C6 at concrete inputs. -/
theorem c6_amended_witness :
    (∃ ids, runRoleIds (userRoleMain c6p false c6srv2) = some ids ∧
      (∀ r, r ∈ ids ↔ r ∈ c6u.role_ids ∨ r ∈ c6p.role_ids) ∧
      (userRoleMain c6p false c6srv2).calls.all (fun c => !isRolesTarget c.target) = true) ∧
    (∃ ids, runRoleIds (userRoleMain c6pAbs false c6srv2) = some ids ∧
      (∀ r, r ∈ ids ↔ r ∈ c6u.role_ids ∧
        ¬(r ∈ c6pAbs.role_ids ∧ r ∈ c6srv2.roles.map (fun ro => ro.id))) ∧
      (∀ c ∈ (userRoleMain c6pAbs false c6srv2).calls, ∀ r : String,
        c = ⟨Method.delete, Target.userRemoveRole c6u.id, Payload.roleId r⟩ →
        r ∈ c6pAbs.role_ids ∧ r ∈ c6u.role_ids ∧
          r ∈ c6srv2.roles.map (fun ro => ro.id))) :=
  ⟨c6_amended_union_difference.1 c6p c6srv2 c6u rfl rfl rfl,
    c6_amended_union_difference.2 c6pAbs c6srv2 c6u rfl rfl rfl⟩

/-! ## C2: present twice with the same desired spec -/

/-- `find?` skips a prefix in which nothing matches. -/
theorem find?_append_of_none {α : Type} (p : α → Bool) (l1 l2 : List α)
    (h : l1.find? p = none) : (l1 ++ l2).find? p = l2.find? p := by
  induction l1 with
  | nil => rfl
  | cons a l ih =>
    have hcons : ∀ (xs : List α), List.find? p (a :: xs) =
        match p a with
        | true => some a
        | false => List.find? p xs := fun xs => rfl
    cases hpa : p a with
    | true =>
      rw [hcons] at h
      rw [hpa] at h
      exact absurd h (by simp)
    | false =>
      rw [hcons] at h
      rw [hpa] at h
      rw [List.cons_append, hcons, hpa]
      exact ih h

/-- After the create POST, looking the new tenant up by its generated id finds
exactly the created record. -/
theorem findTenantById_after_create (srv : Server) (t : Tenant)
    (hfresh : t.id ∉ srv.tenants.map (fun x => x.id)) :
    Server.findTenantById { srv with tenants := srv.tenants ++ [t] } t.id = some t := by
  unfold Server.findTenantById
  rw [find?_append_of_none]
  · simp
  · rw [List.find?_eq_none]
    intro x hx
    simp only [beq_iff_eq]
    intro hxg
    exact hfresh (hxg ▸ List.mem_map_of_mem _ hx)

/-- After the create POST, looking the new tenant up by name finds exactly the
created record, provided no existing tenant already matched the name. -/
theorem findTenantByName_after_create (srv : Server) (t : Tenant)
    (hnone : srv.findTenantByName t.name = none) :
    Server.findTenantByName { srv with tenants := srv.tenants ++ [t] } t.name = some t := by
  unfold Server.findTenantByName at hnone ⊢
  rw [find?_append_of_none _ _ _ hnone]
  simp

/-- C2 (tenant half, helper): the first `present` on a server with no
name match creates the record and returns it with `changed=true`. -/
theorem tenantMain_first_run (p : TenantParams) (srv : Server) (nm : String)
    (hstate : p.state = St.present) (hid : p.id = none)
    (hnm : p.name = some nm) (hne : nm ≠ "")
    (hfind : srv.findTenantByName nm = none) :
    tenantMain p false srv =
      { outcome := Outcome.ok true (TenantObj.record
          ⟨genTenantId (srv.tenants.map (fun t => t.id)), nm, p.switch_vrfs⟩)
        calls := tenantCreateCalls p.switch_vrfs (some nm)
          (genTenantId (srv.tenants.map (fun t => t.id)))
        server := { srv with tenants := srv.tenants ++
          [⟨genTenantId (srv.tenants.map (fun t => t.id)), nm, p.switch_vrfs⟩] } } := by
  have hstr : strTruthy (some nm) = true := by simp [strTruthy, hne]
  have hfresh : genTenantId (srv.tenants.map (fun t => t.id)) ∉
      srv.tenants.map (fun t => t.id) :=
    (tenantIdLoop_spec (srv.tenants.map (fun t => t.id))
      ((srv.tenants.map (fun t => t.id)).length + 1) tenantIdStart
      (exists_free_id (srv.tenants.map (fun t => t.id)))).1
  have hbyid := findTenantById_after_create srv
    ⟨genTenantId (srv.tenants.map (fun t => t.id)), nm, p.switch_vrfs⟩ hfresh
  simp only [genTenantId, List.length_map] at hbyid
  unfold tenantMain tenantPresent
  simp only [hstate, hid, hnm, hstr, hfind]
  simp [Server.createTenant, genTenantId, tenantCreateCalls, hbyid, hfind]

/-- A map that fixes every element of a list is the identity on it. -/
theorem map_id_of_fixed {A : Type} (f : A → A) :
    ∀ (l : List A), (∀ x ∈ l, f x = x) → l.map f = l := by
  intro l
  induction l with
  | nil => intro h; rfl
  | cons a t ih =>
    intro h
    simp only [List.map_cons]
    rw [h a (by simp), ih (fun x hx => h x (by simp [hx]))]

/-- The capabilities POST rewrites only the freshly created role. -/
theorem map_addcap (l : List Role) (r0 : Role) (c : Capability)
    (hfresh : ∀ r ∈ l, r.id ≠ r0.id) :
    (l ++ [r0]).map (fun r => if r.id == r0.id then
        { r with capabilities := r.capabilities ++ [c] } else r) =
      l ++ [{ r0 with capabilities := r0.capabilities ++ [c] }] := by
  rw [List.map_append]
  congr 1
  · apply map_id_of_fixed
    intro x hx
    rw [if_neg (by simp [hfresh x hx])]
  · simp

/-- After the create POST, looking the new role up by id finds exactly the
created record. -/
theorem getRoleById_after_append (srv : Server) (r0 : Role)
    (hfresh : ∀ r ∈ srv.roles, r.id ≠ r0.id) :
    Server.getRoleById { srv with roles := srv.roles ++ [r0] } r0.id = some r0 := by
  unfold Server.getRoleById
  rw [find?_append_of_none]
  · simp
  · rw [List.find?_eq_none]
    intro x hx
    simp only [beq_iff_eq]
    exact hfresh x hx

/-- After the create POST, looking the new role up by name and scope finds
exactly the created record, provided nothing matched before. -/
theorem findRoleByName_after_append (srv : Server) (r0 : Role)
    (hnone : srv.findRoleByName r0.name r0.app_scope_id = none) :
    Server.findRoleByName { srv with roles := srv.roles ++ [r0] } r0.name r0.app_scope_id =
      some r0 := by
  unfold Server.findRoleByName at hnone ⊢
  rw [find?_append_of_none _ _ _ hnone]
  simp

/-- The record the role module's create path leaves on the server: the POSTed
fields plus the capability added right afterwards, if one was requested. -/
def roleAfterCreate (p : RoleParams) (srv : Server) (n : String) : Role :=
  { id := srv.freshRoleId
    name := n
    description := p.description
    app_scope_id := p.app_scope_id
    capabilities :=
      match p.capability with
      | some cap => [⟨capMap cap.1, cap.2⟩]
      | none => [] }

/-- C2 (role half, helper): the first `present` on a server with no
name + scope match creates the role (and its capability, when requested) and
returns the created record with `changed=true`. -/
theorem roleMain_first_run (p : RoleParams) (srv : Server) (n : String)
    (hstate : p.state = St.present) (hid : p.id = none) (hn : p.name = some n)
    (hfind : srv.findRoleByName n p.app_scope_id = none)
    (hfresh : ∀ r ∈ srv.roles, r.id ≠ srv.freshRoleId) :
    (roleMain p false srv).outcome =
      Outcome.ok true (RoleObj.record (roleAfterCreate p srv n)) ∧
    (roleMain p false srv).server =
      { srv with roles := srv.roles ++ [roleAfterCreate p srv n] } := by
  have hbyid : ∀ r1 : Role, r1.id = srv.freshRoleId →
      Server.getRoleById { srv with roles := srv.roles ++ [r1] } srv.freshRoleId =
        some r1 := by
    intro r1 h1
    have := getRoleById_after_append srv r1 (fun r hr => h1 ▸ hfresh r hr)
    rw [h1] at this
    exact this
  unfold roleMain rolePresent roleCapabilityStep
  simp only [hid, hn, hfind, hstate]
  cases hcap : p.capability with
  | none =>
    by_cases hsc : p.app_scope_id = ""
    · constructor <;>
        simp [hcap, hsc, Server.createRole, roleAfterCreate,
          hbyid, hcap]
    · constructor <;>
        simp [hcap, hsc, Server.createRole, roleAfterCreate,
          hbyid, hcap]
  | some cap =>
    have hmapid : List.map
        (fun r => if r.id = srv.freshRoleId then
            { r with capabilities := r.capabilities ++ [⟨capMap cap.1, cap.2⟩] } else r)
        srv.roles = srv.roles :=
      map_id_of_fixed _ srv.roles (fun x hx => if_neg (hfresh x hx))
    by_cases hsc : p.app_scope_id = ""
    · constructor <;>
        simp [hcap, hsc, Server.createRole, Server.addCapability, roleAfterCreate,
          hmapid, hbyid]
    · constructor <;>
        simp [hcap, hsc, Server.createRole, Server.addCapability, roleAfterCreate,
          hmapid, hbyid]

/-- C2 (tenant and role halves): invoking `present` twice with the same
desired spec — on a server with no prior match, check mode off — reports
`changed=true` then `changed=false`, and the second invocation returns the
same record the first one returned. -/
theorem c2_present_idempotent :
    (∀ (p : TenantParams) (srv : Server) (nm : String),
      p.state = St.present → p.id = none → p.name = some nm → nm ≠ "" →
      srv.findTenantByName nm = none →
      ∃ t : Tenant,
        (tenantMain p false srv).outcome = Outcome.ok true (TenantObj.record t) ∧
        (tenantMain p false (tenantMain p false srv).server).outcome =
          Outcome.ok false (TenantObj.record t)) ∧
    (∀ (p : RoleParams) (srv : Server) (n : String),
      p.state = St.present → p.id = none → p.name = some n →
      srv.findRoleByName n p.app_scope_id = none →
      (∀ r ∈ srv.roles, r.id ≠ srv.freshRoleId) →
      ∃ ro : Role,
        (roleMain p false srv).outcome = Outcome.ok true (RoleObj.record ro) ∧
        (roleMain p false (roleMain p false srv).server).outcome =
          Outcome.ok false (RoleObj.record ro)) := by
  constructor
  · intro p srv nm hstate hid hnm hne hfind
    have h1 := tenantMain_first_run p srv nm hstate hid hnm hne hfind
    have hstr : strTruthy (some nm) = true := by simp [strTruthy, hne]
    refine ⟨⟨genTenantId (srv.tenants.map (fun t => t.id)), nm, p.switch_vrfs⟩,
      by rw [h1], ?_⟩
    rw [h1]
    have hfind2 : Server.findTenantByName
        { srv with tenants := srv.tenants ++
          [⟨genTenantId (srv.tenants.map (fun t => t.id)), nm, p.switch_vrfs⟩] } nm =
        some ⟨genTenantId (srv.tenants.map (fun t => t.id)), nm, p.switch_vrfs⟩ := by
      simpa using findTenantByName_after_create srv
        ⟨genTenantId (srv.tenants.map (fun t => t.id)), nm, p.switch_vrfs⟩
        (by simpa using hfind)
    unfold tenantMain tenantPresent
    simp only [hstate, hid, hnm, hstr, hfind2]
    simp [vrfSetNe, hfind2]
  · intro p srv n hstate hid hn hfind hfresh
    have h1 := roleMain_first_run p srv n hstate hid hn hfind hfresh
    refine ⟨roleAfterCreate p srv n, h1.1, ?_⟩
    rw [h1.2]
    have hname2 : Server.findRoleByName
        { srv with roles := srv.roles ++ [roleAfterCreate p srv n] } n p.app_scope_id =
        some (roleAfterCreate p srv n) := by
      have := findRoleByName_after_append srv (roleAfterCreate p srv n)
        (by simpa [roleAfterCreate] using hfind)
      simpa [roleAfterCreate] using this
    have hbyid2 : Server.getRoleById
        { srv with roles := srv.roles ++ [roleAfterCreate p srv n] }
        srv.freshRoleId = some (roleAfterCreate p srv n) := by
      have := getRoleById_after_append srv (roleAfterCreate p srv n)
        (fun r hr => by simpa [roleAfterCreate] using hfresh r hr)
      simpa [roleAfterCreate] using this
    unfold roleMain rolePresent roleCapabilityStep
    cases hdesc : p.description <;> cases hcap : p.capability <;>
      (simp only [roleAfterCreate, hdesc, hcap] at hname2 hbyid2
       simp [hid, hn, hstate, hname2, hbyid2, roleDiff, roleAfterCreate, hdesc, hcap,
         Outcome.changedVal])

/-- The C2 tenant witness parameters. -/
def c2tp : TenantParams :=
  { state := .present, name := some ("Eng"), id := none
    switch_vrfs := ["v1", "v2"], query_type := .single }

/-- The C2 role witness parameters. -/
def c2rp : RoleParams :=
  { state := .present, name := some ("reader"), description := some ("ro")
    app_scope_id := "", id := none, capability := some (Ability.read, "s1") }

/-- Witness for C2 at concrete inputs on an empty server: both tenant and role
double-present runs report changed then unchanged with identical records. -/
theorem c2_witness :
    (∃ t : Tenant,
      (tenantMain c2tp false c3srv).outcome = Outcome.ok true (TenantObj.record t) ∧
      (tenantMain c2tp false (tenantMain c2tp false c3srv).server).outcome =
        Outcome.ok false (TenantObj.record t)) ∧
    (∃ ro : Role,
      (roleMain c2rp false c3srv).outcome = Outcome.ok true (RoleObj.record ro) ∧
      (roleMain c2rp false (roleMain c2rp false c3srv).server).outcome =
        Outcome.ok false (RoleObj.record ro)) :=
  ⟨c2_present_idempotent.1 c2tp c3srv ("Eng") rfl rfl rfl (by decide) rfl,
    c2_present_idempotent.2 c2rp c3srv ("reader") rfl rfl rfl rfl
      (by intro r hr; simp [c3srv] at hr)⟩

end Tet
